import Mathlib

/-!
# Verification of `src/backend/spotify_metadata.py`

A shallow embedding of the metadata-resolution engine of the SpotifyToCSV
repository.  Python functions become Lean functions; the mutable process
state (token caches, call log, the run-scoped artist-genre cache) becomes an
explicit `World` record threaded through the stateful functions; Python
exceptions become `Except PyErr`.  The HTTP layer, the HTML parsing library
(BeautifulSoup) and the system clock are external collaborators and are part
of the `World` (an arbitrary oracle), so theorems quantifying over `World`
quantify over every behaviour of the external layers.

Modelling conventions (noted where they matter):
* Python `str.strip()` / `str.lower()` / `\s` / `\w` are modelled over their
  ASCII behaviour (the inputs the program handles are URLs and JSON fields).
* `requests.Response.raise_for_status` raises exactly for status codes in
  `[400, 600)`, as in the `requests` library.
* JSON-decoded Python values are modelled by `JVal` (no floats: the modelled
  endpoints return integers; `int`/`bool` follow Python's `isinstance`
  semantics where `bool` is a subtype of `int`).
-/

set_option linter.unusedVariables false

/-! ## Python-style string primitives -/

/-- ASCII whitespace, as stripped by Python `str.strip()` / matched by `\s`
(space, tab, newline, carriage return, vertical tab, form feed). -/
def isPySpace (c : Char) : Bool :=
  c == ' ' || c == '\t' || c == '\n' || c == '\r' || c == '\x0b' || c == '\x0c'

/-- `str.strip()` on a character list. -/
def pyStripL (l : List Char) : List Char :=
  ((l.dropWhile isPySpace).reverse.dropWhile isPySpace).reverse

/-- `str.strip()`. -/
def pyStrip (s : String) : String := String.mk (pyStripL s.toList)

/-- `str.lower()` (ASCII). -/
def pyLower (s : String) : String := String.mk (s.toList.map Char.toLower)

/-- Does `s` start with the literal `pat`? (`str.startswith`). -/
def startsWithL : List Char → List Char → Bool
  | [], _ => true
  | _ :: _, [] => false
  | p :: ps, c :: cs => p == c && startsWithL ps cs

/-- `pat in hay` substring test (Python `in` on strings). -/
def containsSubL (hay pat : List Char) : Bool :=
  match hay with
  | [] => pat.isEmpty
  | _ :: rest => startsWithL pat hay || containsSubL rest pat

/-- `str.split(sep)` for a one-character separator: splits on every
occurrence, keeping empty segments (Python semantics). -/
def splitOnCharAux (sep : Char) : List Char → List Char → List (List Char)
  | [], acc => [acc.reverse]
  | c :: rest, acc =>
    if c == sep then acc.reverse :: splitOnCharAux sep rest []
    else splitOnCharAux sep rest (c :: acc)

def splitOnChar (sep : Char) (l : List Char) : List (List Char) :=
  splitOnCharAux sep l []

/-- ASCII alphanumeric (the regex class `[A-Za-z0-9]`). -/
def isAlnumA (c : Char) : Bool :=
  ('a' ≤ c && c ≤ 'z') || ('A' ≤ c && c ≤ 'Z') || ('0' ≤ c && c ≤ '9')

/-- Regex `\w` (ASCII). -/
def isWordC (c : Char) : Bool := isAlnumA c || c == '_'

/-- Zero-pad to two digits (the `{x:02d}` format of f-strings, for the
minute/second fields which are always `< 60`). -/
def padTwo (n : Nat) : String :=
  if n < 10 then "0" ++ toString n else toString n

/-! ## Python values decoded from JSON -/

/-- A Python value as produced by `response.json()`: `None`, `bool`, `int`,
`str`, `list`, `dict`. -/
inductive JVal where
  | null
  | bool (b : Bool)
  | num (n : Int)
  | str (s : String)
  | arr (elems : List JVal)
  | obj (fields : List (String × JVal))

/-- Python truthiness of a `JVal`. -/
def pyTruthy : JVal → Bool
  | .null => false
  | .bool b => b
  | .num n => n != 0
  | .str s => s != ""
  | .arr l => !l.isEmpty
  | .obj f => !f.isEmpty

/-- Python `x or y`. -/
def pyOr (x y : JVal) : JVal := if pyTruthy x then x else y

mutual

/-- Python `repr()` of a `JVal` (quote/escape details of string repr are
elided: no claim depends on the rendering of non-scalar JSON values). -/
def pyRepr : JVal → String
  | .null => "None"
  | .bool b => if b then "True" else "False"
  | .num n => toString n
  | .str s => "'" ++ s ++ "'"
  | .arr l => "[" ++ String.intercalate ", " (pyReprList l) ++ "]"
  | .obj f => "\x7b" ++ String.intercalate ", " (pyReprFields f) ++ "\x7d"

def pyReprList : List JVal → List String
  | [] => []
  | v :: rest => pyRepr v :: pyReprList rest

def pyReprFields : List (String × JVal) → List String
  | [] => []
  | (k, v) :: rest => ("'" ++ k ++ "': " ++ pyRepr v) :: pyReprFields rest

end

/-- Python `str()` of a `JVal`. -/
def pyStr : JVal → String
  | .str s => s
  | v => pyRepr v

/-- `dict.get(key)` on a value that is known to be a `dict` (returns `None`
for a missing key; JSON `null` and Python `None` coincide in this model).
Python dict keys are unique, so first-match lookup is exact. -/
def dictGet (v : JVal) (key : String) : JVal :=
  match v with
  | .obj fields =>
    match fields.find? (fun p => p.1 == key) with
    | some p => p.2
    | none => .null
  | _ => .null

/-- `isinstance(v, int)` — `True` also for `bool` (Python `bool` is an
`int` subclass), with the numeric value of a `bool` being 1 or 0. -/
def pyToInt : JVal → Option Int
  | .num n => some n
  | .bool b => some (if b then 1 else 0)
  | _ => none

/-- `isinstance(v, (int, float))`, as a rational (the modelled endpoints
return integers). -/
def pyToNum : JVal → Option Rat
  | .num n => some (n : Rat)
  | .bool b => some (if b then 1 else 0)
  | _ => none

/-! ## `_format_duration` (src lines 43–52) -/

/-- `_format_duration(duration_ms)`, taking the raw
`track_payload.get("duration_ms")` value. -/
def _format_duration (duration_ms : JVal) : String :=
  match pyToInt duration_ms with
  | none => ""
  | some d =>
    if d ≤ 0 then ""
    else
      let total_seconds := d.toNat / 1000
      let minutes0 := total_seconds / 60
      let seconds := total_seconds % 60
      let hours := minutes0 / 60
      let minutes := minutes0 % 60
      if hours > 0 then
        toString hours ++ ":" ++ padTwo minutes ++ ":" ++ padTwo seconds
      else
        toString minutes ++ ":" ++ padTwo seconds

/-! ## `_dedupe_strings` (src lines 55–67) -/

/-- The loop of `_dedupe_strings`; `seen` holds the lowercase keys. -/
def dedupeAux : List String → List String → List String
  | [], _ => []
  | v :: rest, seen =>
    let cleaned := pyStrip v
    if cleaned == "" then dedupeAux rest seen
    else
      let key := pyLower cleaned
      if seen.contains key then dedupeAux rest seen
      else cleaned :: dedupeAux rest (key :: seen)

/-- `_dedupe_strings(values)` (its argument is always a list of `str`;
`str(value or "")` is the identity there except for mapping `""` to `""`). -/
def _dedupe_strings (values : List String) : List String := dedupeAux values []

/-! ## `track_id_from_url` (src lines 70–99)

The regex
`open\.spotify\.com/(?:intl-[a-z]{2}/)?(?:embed/)?track/([A-Za-z0-9]+)`
is modelled by a scanner over all start positions (leftmost match, like
`re.search`).  The two optional groups are matched greedily without
backtracking, which is extensionally the regex semantics here: each optional
group starts with a literal (`intl-`, `embed/`) that is incompatible with
what must follow when the group is skipped (`embed/` or `track/`), so a
greedy match that leads to failure can never be rescued by skipping. -/

/-- Match a literal at the head of the input, returning the rest. -/
def matchLit : List Char → List Char → Option (List Char)
  | [], s => some s
  | _ :: _, [] => none
  | p :: ps, c :: cs => if p == c then matchLit ps cs else none

/-- The optional group `(?:intl-[a-z]{2}/)?`. -/
def matchIntl (s : List Char) : Option (List Char) :=
  match matchLit "intl-".toList s with
  | none => none
  | some rest =>
    match rest with
    | a :: b :: '/' :: rest2 =>
      if ('a' ≤ a && a ≤ 'z') && ('a' ≤ b && b ≤ 'z') then some rest2 else none
    | _ => none

/-- The optional group `(?:intl-[a-z]{2}/)?`: consume it if it matches. -/
def skipIntl (s1 : List Char) : List Char :=
  match matchIntl s1 with
  | some r => r
  | none => s1

/-- The optional group `(?:embed/)?`: consume it if it matches. -/
def skipEmbed (s2 : List Char) : List Char :=
  match matchLit "embed/".toList s2 with
  | some r => r
  | none => s2

/-- The tail `track/([A-Za-z0-9]+)`: on success return the capture group
(the greedy, hence maximal, alphanumeric run). -/
def matchTrackTail (s3 : List Char) : Option (List Char) :=
  match matchLit "track/".toList s3 with
  | none => none
  | some s4 =>
    if (s4.takeWhile isAlnumA).isEmpty then none
    else some (s4.takeWhile isAlnumA)

/-- Try the whole track-URL pattern at the current position; on success
return the capture group. -/
def matchTrackPat (s : List Char) : Option (List Char) :=
  match matchLit "open.spotify.com/".toList s with
  | none => none
  | some s1 => matchTrackTail (skipEmbed (skipIntl s1))

/-- `re.search` for the track pattern: scan start positions left to right. -/
def searchTrack : List Char → Option (List Char)
  | [] => none
  | c :: rest =>
    match matchTrackPat (c :: rest) with
    | some g => some g
    | none => searchTrack rest

/-! ### `urllib.parse.urlparse(...).path`

Model of CPython's `urlsplit` restricted to what `track_id_from_url` reads
(the `path` component), plus the `ValueError`s `urlsplit` can raise for
malformed bracketed hosts.  `_checknetloc`'s NFKC check only concerns
non-ASCII netlocs and is modelled as a no-op.  The bracketed-host validator
is modelled approximately (a bracketed host passes iff it is a nonempty run
of hex digits, `:`, `.` — a conservative stand-in for the `ipaddress`
parser); no claim depends on bracketed-host inputs. -/

def schemeChar (c : Char) : Bool :=
  c.isAlpha || c.isDigit || c == '+' || c == '-' || c == '.'

def hexOrSep (c : Char) : Bool :=
  ('0' ≤ c && c ≤ '9') || ('a' ≤ c && c ≤ 'f') || ('A' ≤ c && c ≤ 'F') ||
    c == ':' || c == '.'

/-- Take until the first of `/`, `?`, `#` (CPython `_splitnetloc`). -/
def takeNetloc (l : List Char) : List Char × List Char :=
  match l with
  | [] => ([], [])
  | c :: rest =>
    if c == '/' || c == '?' || c == '#' then ([], c :: rest)
    else
      let (n, r) := takeNetloc rest
      (c :: n, r)

/-- Split once at the first occurrence of `sep` (Python `split(sep, 1)`),
returning the part before it and the part after; `none` if absent. -/
def splitOnce (sep : Char) : List Char → Option (List Char × List Char)
  | [] => none
  | c :: rest =>
    if c == sep then some ([], rest)
    else
      match splitOnce sep rest with
      | some (a, b) => some (c :: a, b)
      | none => none

/-- CPython `urlparse`'s `_splitparams`: drop `;params` from the last path
segment. -/
def splitParams (path : List Char) : List Char :=
  if path.contains '/' then
    let n := path.length
    let fromEnd := (path.reverse.findIdx? (fun c => c == '/')).getD 0
    let lastSlash := n - 1 - fromEnd
    match (path.drop lastSlash).findIdx? (fun c => c == ';') with
    | some j => path.take (lastSlash + j)
    | none => path
  else
    match path.findIdx? (fun c => c == ';') with
    | some j => path.take j
    | none => path

/-- `urlparse(url).path`, or an error when `urlsplit` raises `ValueError`.
Follows CPython: WHATWG cleanup, scheme strip, netloc strip (with the
bracketed-host checks), fragment, query, then `urlparse`'s params strip. -/
def urlparsePath (url0 : List Char) : Except Unit (List Char) :=
  -- url = url.lstrip(C0-control-or-space); remove \t \r \n everywhere
  let url1 := (url0.dropWhile (fun c => c.toNat ≤ 0x20)).filter
    (fun c => !(c == '\t' || c == '\r' || c == '\n'))
  -- scheme strip
  let url2 :=
    match url1.findIdx? (fun c => c == ':') with
    | some i =>
      if 0 < i && (url1.headD ' ').isAlpha && (url1.take i).all schemeChar then
        url1.drop (i + 1)
      else url1
    | none => url1
  -- netloc strip
  let netlocStep : Except Unit (List Char) :=
    if startsWithL "//".toList url2 then
      let (netloc, rest) := takeNetloc (url2.drop 2)
      if (netloc.contains '[' && !netloc.contains ']') ||
         (netloc.contains ']' && !netloc.contains '[') then
        .error ()
      else if netloc.contains '[' && netloc.contains ']' then
        let afterOpen := (netloc.dropWhile (fun c => c != '[')).drop 1
        let host := afterOpen.takeWhile (fun c => c != ']')
        if !host.isEmpty && host.all hexOrSep then .ok rest else .error ()
      else .ok rest
    else .ok url2
  match netlocStep with
  | .error () => .error ()
  | .ok url3 =>
    -- fragment then query (each: split once, keep the left part)
    let url4 := match splitOnce '#' url3 with
      | some (a, _) => a
      | none => url3
    let url5 := match splitOnce '?' url4 with
      | some (a, _) => a
      | none => url4
    .ok (splitParams url5)

/-- `track_id_from_url` on a character list. -/
def trackIdCore (url : List Char) : Option (List Char) :=
  if url.isEmpty then none
  else
    let cleaned := pyStripL url
    if cleaned.isEmpty then none
    else if startsWithL "spotify:track:".toList cleaned then
      -- `parts[-1] if parts else None`; `split(":")` never yields an empty list
      some ((splitOnChar ':' cleaned).getLastD [])
    else
      match searchTrack cleaned with
      | some g => some g
      | none =>
        match urlparsePath cleaned with
        | .error () => none
        | .ok path =>
          let path_parts := (splitOnChar '/' path).filter (fun seg => !seg.isEmpty)
          match path_parts.findIdx? (fun seg => seg == "track".toList) with
          | some track_index =>
            match path_parts.get? (track_index + 1) with
            | some seg => some seg
            | none => none
          | none => none

/-- `track_id_from_url(url)` (src lines 70–99). -/
def track_id_from_url (url : String) : Option String :=
  (trackIdCore url.toList).map String.mk

/-! ## `_extract_track_artist_from_html` (src lines 102–166)

BeautifulSoup is an external collaborator: the parsed document is modelled
by `HtmlDoc`, produced by the environment's `parseHtml` oracle from the
response text.  The fields are exactly what the source reads from the soup:
the attribute lists of the `meta` tags, `get_text("\n", strip=True)`, and
the `(href, get_text(strip=True))` pairs of the anchors that have an `href`
attribute (`find_all("a", href=True)`). -/

structure HtmlDoc where
  metas : List (List (String × String))
  pageText : String
  anchors : List (String × String)

/-- First value for an attribute name (tag attributes are unique). -/
def lookupAttr (attrs : List (String × String)) (k : String) : Option String :=
  (attrs.find? (fun p => p.1 == k)).map (fun p => p.2)

/-- The inner `meta_content` helper (src lines 105–110). -/
def meta_content (soup : HtmlDoc) (name : String) : Option String :=
  match soup.metas.find? (fun attrs => lookupAttr attrs "property" == some name) with
  | none => none
  | some tag =>
    let value := pyStrip ((lookupAttr tag "content").getD "")
    if value == "" then none else some value

/-! ### The regex `\bby\s+(.+?)\s+on\s+Spotify\b` with `re.I`

Backtracking order of the Python engine: `\s+` is greedy (longest first),
`(.+?)` is lazy (shortest first), and an inner `\s+` that is directly
followed by a literal never benefits from giving characters back (a shorter
run leaves a whitespace character where the literal must match), so the tail
`\s+on\s+Spotify\b` is deterministic. -/

/-- Case-insensitive literal match (ASCII lowering). -/
def matchCaseless : List Char → List Char → Option (List Char)
  | [], s => some s
  | _ :: _, [] => none
  | p :: ps, c :: cs =>
    if p.toLower == c.toLower then matchCaseless ps cs else none

/-- Match `\s+on\s+Spotify\b` at the head of the input. -/
def matchOnSpotify (s : List Char) : Bool :=
  if (s.takeWhile isPySpace).isEmpty then false
  else
    match matchCaseless "on".toList (s.dropWhile isPySpace) with
    | none => false
    | some r2 =>
      if (r2.takeWhile isPySpace).isEmpty then false
      else
        match matchCaseless "spotify".toList (r2.dropWhile isPySpace) with
        | none => false
        | some r4 =>
          match r4 with
          | [] => true
          | c :: _ => !isWordC c

/-- Lazy `(.+?)` capture: grow the group one character at a time (newline
never matches `.`), stopping at the first point where the tail matches. -/
def findLazyGroup (acc : List Char) : List Char → Option (List Char)
  | [] => none
  | c :: rest =>
    if c == '\n' then none
    else if matchOnSpotify rest then some (c :: acc).reverse
    else findLazyGroup (c :: acc) rest

/-- Backtracking over the leading `\s+`: `wsRev` is the reversed run of
whitespace currently consumed (length = the quantifier's count `k ≥ 1`);
on failure the last whitespace character is given back to the group
region, until `k = 1`. -/
def tryKValues : List Char → List Char → Option (List Char)
  | wsRev, rest =>
    match findLazyGroup [] rest with
    | some g => some g
    | none =>
      match wsRev with
      | [] => none
      | [_] => none
      | w :: wsRev' => tryKValues wsRev' (w :: rest)

/-- Try a match of the whole pattern starting at the current position
(`prev` is the character before it, for the `\b` test). -/
def tryByMatch (prev : Option Char) (s : List Char) : Option (List Char) :=
  let boundary := match prev with
    | none => true
    | some p => !isWordC p
  if !boundary then none
  else
    match matchCaseless "by".toList s with
    | none => none
    | some r =>
      let ws := r.takeWhile isPySpace
      if ws.isEmpty then none
      else tryKValues ws.reverse (r.dropWhile isPySpace)

/-- `re.search(r"\bby\s+(.+?)\s+on\s+Spotify\b", s, re.I)`: leftmost match,
returning group 1. -/
def searchByOnSpotify (prev : Option Char) : List Char → Option (List Char)
  | [] => none
  | c :: rest =>
    match tryByMatch prev (c :: rest) with
    | some g => some g
    | none => searchByOnSpotify (some c) rest

/-- Truthiness of a `str | None` Python value (`None` and `""` are falsy). -/
def pyTruthyOptStr : Option String → Bool
  | none => false
  | some s => s != ""

/-- The boilerplate-line filter of the title fallback (src lines 130–142). -/
def pickLine : List String → Option String
  | [] => none
  | line :: rest =>
    if line == "#" || line == "##" || line == "E" then pickLine rest
    else
      let lower := pyLower line
      if startsWithL "preview of spotify".toList lower.toList then pickLine rest
      else if startsWithL "sign up to get unlimited songs".toList lower.toList then pickLine rest
      else if startsWithL "listen on spotify".toList lower.toList then pickLine rest
      else some line

/-- The anchor-text dedupe loop (src lines 155–162): case-insensitive keys,
order preserving, no stripping. -/
def dedupeNoStrip : List String → List String → List String
  | [], _ => []
  | a :: rest, seen =>
    let key := pyLower a
    if seen.contains key then dedupeNoStrip rest seen
    else a :: dedupeNoStrip rest (key :: seen)

/-- `_extract_track_artist_from_html(html)` over the parsed document. -/
def _extract_track_artist_from_html (soup : HtmlDoc) : Option String × Option String :=
  let track_name0 := meta_content soup "og:title"
  let description := meta_content soup "og:description"
  let artists0 : Option String :=
    match description with
    | none => none
    | some desc =>
      match searchByOnSpotify none desc.toList with
      | some g => some (pyStrip (String.mk g))
      | none =>
        let parts := ((splitOnChar '·' desc.toList).map
          (fun p => pyStrip (String.mk p))).filter (fun p => p != "")
        if parts.length ≥ 2 then (parts.get? 1)
        else if parts.length == 1 && pyTruthyOptStr track_name0 &&
            pyLower (parts.headD "") != pyLower (track_name0.getD "") then
          parts.head?
        else none
  let lines := ((splitOnChar '\n' soup.pageText.toList).map
    (fun l => pyStrip (String.mk l))).filter (fun l => l != "")
  let track_name : Option String :=
    if pyTruthyOptStr track_name0 then track_name0 else pickLine lines
  let artists : Option String :=
    if pyTruthyOptStr artists0 then artists0
    else
      let artist_links := (soup.anchors.filter
        (fun a => containsSubL a.1.toList "/artist/".toList && a.2 != "")).map
          (fun a => a.2)
      let deduped := dedupeNoStrip artist_links []
      if !deduped.isEmpty then some (String.intercalate ", " deduped) else none
  (track_name, artists)

/-! ## The stateful layer: `World`, HTTP oracle, exceptions

A run threads a `World` through every effectful function:
* `envClientId` / `envClientSecret` — `os.getenv` (an absent variable is
  `none`);
* `now` — the clock (`time.time()`), an exact rational;
* `http` — the transport oracle: given the index of the call (the length of
  the log so far) and the request, it yields a transport error or a
  response; quantifying over `http` quantifies over every behaviour of the
  HTTP layer, including responses that differ between the two retry
  attempts;
* `parseHtml` — the BeautifulSoup oracle;
* `calls` — the log of network calls made so far;
* `tokenCC` / `tokenWP` — the process-wide `_TOKEN_CACHE` entries;
* `genreCache` — the run-scoped `artist_genre_cache` dict, an insertion-
  ordered association list with unique keys. -/

/-- A Python exception. -/
inductive PyErr where
  | valueError (msg : String)
  | runtimeError (msg : String)
  | typeError (msg : String)
  | attributeError (msg : String)
  /-- `requests.HTTPError` from `raise_for_status`. -/
  | httpStatusError (status : Nat)
  /-- A transport failure raised by `session.get`/`session.post` itself. -/
  | transportError (msg : String)
  /-- `response.json()` failed to decode. -/
  | jsonDecodeError
deriving DecidableEq

/-- Python `str(exc)` (the `requests.HTTPError` text is abbreviated to its
status code; only its presence in aggregated messages matters). -/
def pyErrMsg : PyErr → String
  | .valueError m => m
  | .runtimeError m => m
  | .typeError m => m
  | .attributeError m => m
  | .httpStatusError s => toString s ++ " Error"
  | .transportError m => m
  | .jsonDecodeError => "Expecting value"

/-- The network requests the program can issue. -/
inductive HttpRequest where
  /-- `session.post(SPOTIFY_ACCOUNTS_TOKEN_URL, auth=(id, secret), ...)`. -/
  | postToken (clientId clientSecret : String)
  /-- `session.get(SPOTIFY_WEB_TOKEN_URL, ...)`. -/
  | getWebToken
  /-- `session.get(url, headers={"Authorization": "Bearer <token>"}, ...)`. -/
  | getApi (url : String) (bearer : String)
  /-- `session.get(embed_url, ...)` of the scrape fallback. -/
  | getEmbed (url : String)
deriving DecidableEq

/-- What a completed HTTP exchange exposes to the program. -/
structure HttpResponse where
  status : Nat
  /-- The result of `response.json()` (it may raise). -/
  jsonBody : Except PyErr JVal
  /-- `response.text`. -/
  text : String

/-- Outcome of attempting a request: transport error, or a response. -/
def HttpResult := Except PyErr HttpResponse

/-- One `_TOKEN_CACHE` entry: `{"token": ..., "expires_at": ...}`. -/
structure TokenEntry where
  token : String
  expiresAt : Rat
deriving DecidableEq

structure World where
  envClientId : Option String
  envClientSecret : Option String
  now : Rat
  http : Nat → HttpRequest → HttpResult
  parseHtml : String → HtmlDoc
  calls : List HttpRequest
  tokenCC : TokenEntry
  tokenWP : TokenEntry
  genreCache : List (String × List String)

/-- Result of a stateful step: Python's exception-or-value, plus the world
after the step (state mutated before the raise persists, as in Python). -/
def MRes (α : Type) := Except PyErr α × World

/-- Issue a request: log it, then consult the oracle. -/
def doRequest (req : HttpRequest) (w : World) : MRes HttpResponse :=
  let w' := { w with calls := w.calls ++ [req] }
  match w.http w.calls.length req with
  | .error e => (.error e, w')
  | .ok resp => (.ok resp, w')

/-- Does `response.raise_for_status()` raise? (`requests`: 4xx and 5xx). -/
def badStatus (status : Nat) : Bool := 400 ≤ status && status < 600

/-- `dict.get(key)` where the receiver may not be a `dict` (the decoded
token payloads): a non-`dict` receiver raises `AttributeError`. -/
def pyGetE (v : JVal) (key : String) : Except PyErr JVal :=
  match v with
  | .obj _ => .ok (dictGet v key)
  | _ => .error (.attributeError "object has no attribute 'get'")

/-! ## Token providers (src lines 169–237) -/

/-- The part of `_get_client_credentials_token` after the `session.post`
returned (src lines 191–206): `raise_for_status`, decode, extract and cache
the token. -/
def ccHandleResponse (now : Rat) (response : HttpResponse) (w1 : World) : MRes String :=
  if badStatus response.status then (.error (.httpStatusError response.status), w1)
  else
    match response.jsonBody with
    | .error e => (.error e, w1)
    | .ok payload =>
      match pyGetE payload "access_token" with
      | .error e => (.error e, w1)
      | .ok v =>
        let token := pyStrip (pyStr (pyOr v (.str "")))
        if token == "" then
          (.error (.valueError "Spotify client-credentials token was missing in response."), w1)
        else
          match pyGetE payload "expires_in" with
          | .error e => (.error e, w1)
          | .ok ei =>
            let expires_at := match pyToNum ei with
              | some q => now + q
              | none => now + 300
            (.ok token, { w1 with tokenCC := ⟨token, expires_at⟩ })

/-- `_get_client_credentials_token(session, timeout, force_refresh)`
(src lines 169–206). -/
def _get_client_credentials_token (force_refresh : Bool) (w : World) : MRes String :=
  let client_id := pyStrip (w.envClientId.getD "")
  let client_secret := pyStrip (w.envClientSecret.getD "")
  if client_id == "" || client_secret == "" then
    (.error (.valueError "SPOTIFY_CLIENT_ID / SPOTIFY_CLIENT_SECRET are not configured."), w)
  else
    let cache := w.tokenCC
    if !force_refresh && cache.token != "" && decide (w.now < cache.expiresAt - 30) then
      (.ok cache.token, w)
    else
      match doRequest (.postToken client_id client_secret) w with
      | (.error e, w1) => (.error e, w1)
      | (.ok response, w1) => ccHandleResponse w.now response w1

/-- The part of `_get_web_player_token` after the `session.get` returned
(src lines 222–237). -/
def wpHandleResponse (now : Rat) (response : HttpResponse) (w1 : World) : MRes String :=
  if badStatus response.status then (.error (.httpStatusError response.status), w1)
  else
    match response.jsonBody with
    | .error e => (.error e, w1)
    | .ok payload =>
      match pyGetE payload "accessToken" with
      | .error e => (.error e, w1)
      | .ok v =>
        let token := pyStrip (pyStr (pyOr v (.str "")))
        if token == "" then
          (.error (.valueError "Spotify web access token was missing in response."), w1)
        else
          match pyGetE payload "accessTokenExpirationTimestampMs" with
          | .error e => (.error e, w1)
          | .ok ms =>
            let expires_at := match pyToNum ms with
              | some q => q / 1000
              | none => now + 300
            (.ok token, { w1 with tokenWP := ⟨token, expires_at⟩ })

/-- `_get_web_player_token(session, timeout, force_refresh)`
(src lines 209–237). -/
def _get_web_player_token (force_refresh : Bool) (w : World) : MRes String :=
  let cache := w.tokenWP
  if !force_refresh && cache.token != "" && decide (w.now < cache.expiresAt - 30) then
    (.ok cache.token, w)
  else
    match doRequest .getWebToken w with
    | (.error e, w1) => (.error e, w1)
    | (.ok response, w1) => wpHandleResponse w.now response w1

/-- The aggregated failure message of `_get_spotify_access_token`
(src lines 249–252): `f"{provider.__name__}: {exc}"` for each provider,
joined with `" | "`. -/
def aggregateMsg (e1 e2 : PyErr) : String :=
  "Unable to obtain Spotify token. _get_client_credentials_token: " ++
    pyErrMsg e1 ++ " | _get_web_player_token: " ++ pyErrMsg e2

/-- The second iteration of the provider loop of
`_get_spotify_access_token`: `WebPlayer`, given the `ClientCredentials`
failure `e1`. -/
def getAnySecond (e1 : PyErr) (force_refresh : Bool) (w1 : World) : MRes String :=
  match _get_web_player_token force_refresh w1 with
  | (.ok t, w2) => (.ok t, w2)
  | (.error e2, w2) => (.error (.runtimeError (aggregateMsg e1 e2)), w2)

/-- `_get_spotify_access_token(session, timeout, force_refresh)`
(src lines 240–252), with the two-element provider loop unrolled: try
`ClientCredentials`, then `WebPlayer`, collecting
`f"{provider.__name__}: {exc}"` for each failure. -/
def _get_spotify_access_token (force_refresh : Bool) (w : World) : MRes String :=
  match _get_client_credentials_token force_refresh w with
  | (.ok t, w1) => (.ok t, w1)
  | (.error e1, w1) => getAnySecond e1 force_refresh w1

/-! ## `_spotify_api_get` (src lines 255–284)

The two-iteration `for attempt in range(2)` loop, unrolled.  Paths:
* attempt 0 token error → attempt 1; if that token also errors, the loop
  ends with `response is None` and re-raises the last token error;
* a transport error of `session.get` is not caught and propagates;
* a 401 on attempt 0 → `continue`; if attempt 1's token acquisition then
  fails, the loop ends with `response` = the 401 response, and the trailing
  `response.raise_for_status()` raises `HTTPError(401)`;
* otherwise `raise_for_status`, `response.json()`, and
  `data if isinstance(data, dict) else {}`. -/

/-- `data if isinstance(data, dict) else {}`. -/
def jvalAsDict : JVal → JVal
  | .obj f => .obj f
  | _ => .obj []

/-- The shared tail of a loop iteration that did not `continue`:
`raise_for_status()`, `json()`, coerce to dict. -/
def apiFinish (response : HttpResponse) (w : World) : MRes JVal :=
  if badStatus response.status then (.error (.httpStatusError response.status), w)
  else
    match response.jsonBody with
    | .error e => (.error e, w)
    | .ok d => (.ok (jvalAsDict d), w)

/-- One fetch of attempt 1 (the token is already in hand): the `GET`, then
the shared tail; a transport error propagates uncaught. -/
def apiFetch1 (url tok1 : String) (w3 : World) : MRes JVal :=
  match doRequest (.getApi url tok1) w3 with
  | (.error e, w4) => (.error e, w4)
  | (.ok r1, w4) => apiFinish r1 w4

/-- Attempt 1 after attempt 0's *token acquisition* failed (`response` is
still `None`): a second token failure ends the loop and re-raises it
(`raise last_error`). -/
def apiAfterTokenFail (url : String) (w1 : World) : MRes JVal :=
  match _get_spotify_access_token true w1 with
  | (.error e1, w2) => (.error e1, w2)
  | (.ok tok1, w2) => apiFetch1 url tok1 w2

/-- Attempt 1 after a 401 on attempt 0: the token is force-refreshed; if
that fails the loop ends with the stored 401 response, and the trailing
`response.raise_for_status()` raises `HTTPError(401)`. -/
def apiAfter401 (url : String) (w2 : World) : MRes JVal :=
  match _get_spotify_access_token true w2 with
  | (.error _, w3) => (.error (.httpStatusError 401), w3)
  | (.ok tok1, w3) => apiFetch1 url tok1 w3

/-- Attempt 0's fetch, once its token is in hand: the `GET`, the
`continue` on a 401, else the shared tail. -/
def apiFirstFetch (url tok0 : String) (w1 : World) : MRes JVal :=
  match doRequest (.getApi url tok0) w1 with
  | (.error e, w2) => (.error e, w2)
  | (.ok r0, w2) =>
    if r0.status == 401 then apiAfter401 url w2
    else apiFinish r0 w2

/-- `_spotify_api_get(session, url, timeout)` (src lines 255–284). -/
def _spotify_api_get (url : String) (w : World) : MRes JVal :=
  match _get_spotify_access_token false w with
  | (.error _, w1) => apiAfterTokenFail url w1
  | (.ok tok0, w1) => apiFirstFetch url tok0 w1

/-! ## `fetch_track_artist` (src lines 287–297) -/

/-- The tail of `fetch_track_artist` once the embed page responded:
`raise_for_status`, then extract from the parsed markup. -/
def embedHandleResponse (response : HttpResponse) (w1 : World) :
    MRes (Option String × Option String) :=
  if badStatus response.status then (.error (.httpStatusError response.status), w1)
  else (.ok (_extract_track_artist_from_html (w1.parseHtml response.text)), w1)

/-- The embed-page fetch of `fetch_track_artist` (src lines 294–297). -/
def fetchEmbed (track_id : String) (w : World) : MRes (Option String × Option String) :=
  match doRequest (.getEmbed ("https://open.spotify.com/embed/track/" ++ track_id)) w with
  | (.error e, w1) => (.error e, w1)
  | (.ok response, w1) => embedHandleResponse response w1

/-- `fetch_track_artist(spotify_url, session, timeout)`.  `if not track_id`
is a truthiness test: both `None` and the empty string short-circuit. -/
def fetch_track_artist (spotify_url : String) (w : World) : MRes (Option String × Option String) :=
  match track_id_from_url spotify_url with
  | none => (.ok (none, none), w)
  | some track_id =>
    if track_id == "" then (.ok (none, none), w)
    else fetchEmbed track_id w

/-! ## `fetch_track_metadata` (src lines 300–388) -/

/-- The `TrackMetadata` record (`_blank_metadata`'s keys, src lines 30–40). -/
structure Metadata where
  artist : String
  track_name : String
  genre : String
  album : String
  release_date : String
  duration : String
  explicit : String
  popularity : String
deriving DecidableEq

/-- `_blank_metadata()`. -/
def _blank_metadata : Metadata :=
  { artist := "", track_name := "", genre := "", album := "", release_date := ""
    duration := "", explicit := "", popularity := "" }

/-- Python `for x in v`: lists iterate their elements, strings their
characters, dicts their keys; other values raise `TypeError`.  (`None`
never reaches a loop here because of the preceding `or []`.) -/
def pyIter : JVal → Except PyErr (List JVal)
  | .arr l => .ok l
  | .str s => .ok (s.toList.map (fun c => .str (String.mk [c])))
  | .obj f => .ok (f.map (fun p => JVal.str p.1))
  | _ => .error (.typeError "object is not iterable")

/-- `artist_id in artist_genre_cache` / `artist_genre_cache[artist_id]`:
insertion-ordered association list with unique keys (a Python dict). -/
def cacheLookup (c : List (String × List String)) (k : String) : Option (List String) :=
  (c.find? (fun p => p.1 == k)).map (fun p => p.2)

/-- The genre list cached for one artist from its decoded payload
(src lines 338–341): `_dedupe_strings([str(genre) for genre in raw_genres])`,
where a `TypeError` from iterating a non-iterable truthy value is absorbed
by the enclosing `except` into the empty list (src line 343). -/
def genresOfPayload (artist_payload : JVal) : List String :=
  match pyIter (pyOr (dictGet artist_payload "genres") (.arr [])) with
  | .ok raw_genres => _dedupe_strings (raw_genres.map pyStr)
  | .error _ => []

/-- The `if artist_id not in artist_genre_cache` block (src lines 333–343):
populate the run-scoped cache, caching the empty list when the per-artist
lookup fails (the inner `except Exception`). -/
def populateGenreCache (artist_id : String) (w : World) : World :=
  if (cacheLookup w.genreCache artist_id).isSome then w
  else
    match _spotify_api_get ("https://api.spotify.com/v1/artists/" ++ artist_id) w with
    | (.ok artist_payload, wa) =>
      { wa with genreCache := wa.genreCache ++ [(artist_id, genresOfPayload artist_payload)] }
    | (.error _, wa) => { wa with genreCache := wa.genreCache ++ [(artist_id, [])] }

/-- The artist loop of `fetch_track_metadata` (src lines 321–345),
accumulating `artists` and `genres` and populating the run-scoped genre
cache.  The body never raises: the per-artist lookup absorbs every
exception into a cached empty list. -/
def artistLoop : List JVal → List String → List String → World →
    (List String × List String) × World
  | [], artists, genres, w => ((artists, genres), w)
  | entry :: rest, artists, genres, w =>
    match entry with
    | .obj fields =>
      let artist_name := pyStrip (pyStr (pyOr (dictGet (.obj fields) "name") (.str "")))
      let artists' := if artist_name != "" then artists ++ [artist_name] else artists
      let artist_id := pyStrip (pyStr (pyOr (dictGet (.obj fields) "id") (.str "")))
      if artist_id == "" then artistLoop rest artists' genres w
      else
        let w1 := populateGenreCache artist_id w
        -- `genres.extend(artist_genre_cache[artist_id])`; the key is present
        let genres' := genres ++ ((cacheLookup w1.genreCache artist_id).getD [])
        artistLoop rest artists' genres' w1
    | _ => artistLoop rest artists genres w

/-- The body of the first `try` of `fetch_track_metadata` (src lines
312–373): the structured fetch.  An `.error` result models an exception
escaping to the enclosing `except` — in that case the `metadata` dict of the
caller is still all-blank, because the only writes to it (src lines 363–370)
are non-raising assignments performed after every fallible step. -/
def structuredFromPayload (track_payload : JVal) (w1 : World) : MRes Metadata :=
  let track_name := pyStrip (pyStr (pyOr (dictGet track_payload "name") (.str "")))
  match pyIter (pyOr (dictGet track_payload "artists") (.arr [])) with
  | .error e => (.error e, w1)
  | .ok artists_data =>
    let ((artists, genres), w2) := artistLoop artists_data [] [] w1
    let album_data := jvalAsDict (dictGet track_payload "album")
    let explicit := match dictGet track_payload "explicit" with
      | .bool b => if b then "Yes" else "No"
      | _ => ""
    let popularity := match pyToInt (dictGet track_payload "popularity") with
      | some _ => pyStr (dictGet track_payload "popularity")
      | none => ""
    (.ok {
      artist := String.intercalate ", " (_dedupe_strings artists)
      track_name := track_name
      genre := String.intercalate ", " (_dedupe_strings genres)
      album := pyStrip (pyStr (pyOr (dictGet album_data "name") (.str "")))
      release_date := pyStrip (pyStr (pyOr (dictGet album_data "release_date") (.str "")))
      duration := _format_duration (dictGet track_payload "duration_ms")
      explicit := explicit
      popularity := popularity }, w2)

def structuredAttempt (track_id : String) (w : World) : MRes Metadata :=
  match _spotify_api_get ("https://api.spotify.com/v1/tracks/" ++ track_id) w with
  | (.error e, w1) => (.error e, w1)
  | (.ok track_payload, w1) => structuredFromPayload track_payload w1

/-- The second `try` of `fetch_track_metadata` (src lines 377–386): overlay
the scrape fallback's `track_name`/`artist` onto `m`; absorb any failure. -/
def fallbackStep (spotify_url : String) (m : Metadata) (w : World) : MRes Metadata :=
  match fetch_track_artist spotify_url w with
  | (.ok (fallback_track, fallback_artist), w1) =>
    (.ok { m with track_name := fallback_track.getD "", artist := fallback_artist.getD "" }, w1)
  | (.error _, w1) => (.ok m, w1)

/-- `fetch_track_metadata(spotify_url, session, artist_genre_cache, timeout)`
(src lines 300–388).  The result type admits an exception, but both `try`
blocks catch `Exception`, so every path yields `.ok` (the claim-level
never-raises property). -/
def fetch_track_metadata (spotify_url : String) (w : World) : MRes Metadata :=
  match track_id_from_url spotify_url with
  | none => (.ok _blank_metadata, w)
  | some track_id =>
    if track_id == "" then (.ok _blank_metadata, w)
    else
      match structuredAttempt track_id w with
      | (.ok m, w1) =>
        if m.track_name != "" || m.artist != "" || m.genre != "" then (.ok m, w1)
        else fallbackStep spotify_url m w1
      | (.error _, w1) => fallbackStep spotify_url _blank_metadata w1

/-! ## `fill_rows` (src lines 391–414) -/

/-- One output row: `{"url": ..., **metadata}`. -/
structure Row where
  url : String
  artist : String
  track_name : String
  genre : String
  album : String
  release_date : String
  duration : String
  explicit : String
  popularity : String
deriving DecidableEq

def rowOfMetadata (url : String) (m : Metadata) : Row :=
  { url := url, artist := m.artist, track_name := m.track_name, genre := m.genre
    album := m.album, release_date := m.release_date, duration := m.duration
    explicit := m.explicit, popularity := m.popularity }

/-- The loop of `fill_rows`.  The inter-request `time.sleep` does not affect
any modelled observable and is omitted. -/
def fillRowsLoop : List String → World → Except PyErr (List Row) × World
  | [], w => (.ok [], w)
  | value :: rest, w =>
    let url := pyStrip value
    if url == "" then
      match fillRowsLoop rest w with
      | (.ok rows, w1) => (.ok (rowOfMetadata "" _blank_metadata :: rows), w1)
      | (.error e, w1) => (.error e, w1)
    else
      match fetch_track_metadata url w with
      | (.ok m, w1) =>
        match fillRowsLoop rest w1 with
        | (.ok rows, w2) => (.ok (rowOfMetadata url m :: rows), w2)
        | (.error e, w2) => (.error e, w2)
      | (.error e, w1) => (.error e, w1)

/-- `fill_rows(urls, delay_seconds)` (src lines 391–414): fresh session and
a fresh run-scoped `artist_genre_cache`. -/
def fill_rows (urls : List String) (w : World) : Except PyErr (List Row) × World :=
  fillRowsLoop urls { w with genreCache := [] }

/-! ## Observables over the call log, and concrete test fixtures -/

/-- Is this a metadata-API `GET` for `url`? -/
def isApiCall (url : String) : HttpRequest → Bool
  | .getApi u _ => u == url
  | _ => false

/-- Number of metadata-API `GET`s for `url` in a log. -/
def countApi (url : String) (calls : List HttpRequest) : Nat :=
  calls.countP (isApiCall url)

/-- Is this a scrape-fallback request? -/
def isEmbedCall : HttpRequest → Bool
  | .getEmbed _ => true
  | _ => false

/-- Number of scrape-fallback requests in a log. -/
def countEmbed (calls : List HttpRequest) : Nat := calls.countP isEmbedCall

/-- Is this a token-endpoint request? -/
def isTokenCall : HttpRequest → Bool
  | .postToken _ _ => true
  | .getWebToken => true
  | _ => false

/-- An empty parsed document. -/
def emptyDoc : HtmlDoc := { metas := [], pageText := "", anchors := [] }

/-- A world whose network always fails and whose state is pristine. -/
def Winert : World :=
  { envClientId := none, envClientSecret := none, now := 0
    http := fun _ _ => .error (.transportError "offline")
    parseHtml := fun _ => emptyDoc
    calls := [], tokenCC := ⟨"", 0⟩, tokenWP := ⟨"", 0⟩, genreCache := [] }

/-- A 200 response whose body decodes to `v`. -/
def okJson (v : JVal) : HttpResult :=
  .ok { status := 200, jsonBody := .ok v, text := "" }

/-- A response with the given status and an empty JSON object body. -/
def statusResp (s : Nat) : HttpResult :=
  .ok { status := s, jsonBody := .ok (.obj []), text := "" }

/-- A client-credentials token response granting `"tok"` for 3600 s. -/
def tokenResp : HttpResult :=
  okJson (.obj [("access_token", .str "tok"), ("expires_in", .num 3600)])

/-- Secrets unset, but a still-valid cached client-credentials token. -/
def WnoCfg : World :=
  { Winert with tokenCC := ⟨"cached-token", 1000⟩ }

/-- Secrets set, a still-valid cached client-credentials token. -/
def Wcached : World :=
  { Winert with envClientId := some "id", envClientSecret := some "sec"
                tokenCC := ⟨"cached-token", 1000⟩ }

/-- Secrets set; the token endpoint answers 500. -/
def Wcfg500 : World :=
  { Winert with envClientId := some "id", envClientSecret := some "sec"
                tokenCC := ⟨"stale", 0⟩
                http := fun _ _ => statusResp 500 }

/-- Secrets set; call 0 grants a token, call 1 answers the given status
with a JSON-object body. -/
def httpTokenThen (s : Nat) : Nat → HttpRequest → HttpResult := fun i req =>
  match req with
  | .postToken _ _ => if i == 0 then tokenResp else .error (.transportError "offline")
  | .getApi _ _ => if i == 1 then statusResp s else .error (.transportError "offline")
  | _ => .error (.transportError "offline")

/-- Secrets set; token then a 500 from the metadata API. -/
def Wapi500 : World :=
  { Winert with envClientId := some "id", envClientSecret := some "sec"
                http := httpTokenThen 500 }

/-- Secrets set; token then a 304 (not a 2xx, not an error for
`raise_for_status`) with a decodable dict body from the metadata API. -/
def Wapi304 : World :=
  { Winert with envClientId := some "id", envClientSecret := some "sec"
                http := httpTokenThen 304 }

/-- A document with a title meta tag and one artist anchor. -/
def docTA : HtmlDoc :=
  { metas := [[("property", "og:title"), ("content", "T")]]
    pageText := "", anchors := [("/artist/1", "A")] }

/-- No secrets and no reachable token endpoint (the structured path fails),
but the embed page is served and parses to `docTA`. -/
def Wscrape : World :=
  { Winert with
      http := fun _ req =>
        match req with
        | .getEmbed _ => .ok { status := 200, jsonBody := .error .jsonDecodeError, text := "page" }
        | _ => .error (.transportError "no net")
      parseHtml := fun _ => docTA }

/-- A pristine world with one pre-cached artist-genre entry. -/
def WcachePre : World :=
  { Winert with genreCache := [("a0", ["g0"])] }

/-- Is this a metadata-API `GET` (to any URL)? -/
def isApiGetCall : HttpRequest → Bool
  | .getApi _ _ => true
  | _ => false

/-- Anything but a scrape-fallback request. -/
def notEmbedCall (r : HttpRequest) : Bool := !isEmbedCall r

/-- `w'` extends `w`'s call log only with requests satisfying `P`. -/
def CallsExtend (P : HttpRequest → Bool) (w w' : World) : Prop :=
  ∃ extra, w'.calls = w.calls ++ extra ∧ extra.all P = true

/-- Every artist-genre entry cached in `w` is still cached, unchanged,
in `w'`. -/
def CachePreserve (w w' : World) : Prop :=
  ∀ k v, cacheLookup w.genreCache k = some v → cacheLookup w'.genreCache k = some v

/-! ## Helper lemmas -/

theorem takeWhile_eq_self_of_all {p : Char → Bool} :
    ∀ (l : List Char), l.all p = true → l.takeWhile p = l := by
  intro l h
  induction l with
  | nil => rfl
  | cons c t ih =>
    simp only [List.all_cons, Bool.and_eq_true] at h
    simp [List.takeWhile_cons, h.1, ih h.2]

theorem takeWhile_sat {p : Char → Bool} :
    ∀ (l : List Char), (l.takeWhile p).all p = true := by
  intro l
  induction l with
  | nil => rfl
  | cons c t ih =>
    by_cases h : p c = true
    · simp [List.takeWhile_cons, h, ih]
    · simp only [Bool.not_eq_true] at h
      simp [List.takeWhile_cons, h]

theorem ne_nil_of_isEmpty_false {l : List Char} (h : l.isEmpty = false) : l ≠ [] := by
  cases l with
  | nil => cases h
  | cons c t => exact fun hc => List.noConfusion hc

theorem matchLit_append : ∀ (p rest : List Char), matchLit p (p ++ rest) = some rest := by
  intro p
  induction p with
  | nil => intro rest; rfl
  | cons c cs ih => intro rest; simp [matchLit, ih]

theorem alnum_not_space {c : Char} (h : isAlnumA c = true) : isPySpace c = false := by
  by_contra hs
  rw [Bool.not_eq_false] at hs
  have hc : c = ' ' ∨ c = '\t' ∨ c = '\n' ∨ c = '\r' ∨ c = '\x0b' ∨ c = '\x0c' := by
    simpa [isPySpace, or_assoc] using hs
  rcases hc with h1 | h1 | h1 | h1 | h1 | h1 <;> subst h1 <;> exact absurd h (by decide)

theorem matchTrackTail_alnum :
    ∀ s g, matchTrackTail s = some g → g ≠ [] ∧ g.all isAlnumA = true := by
  intro s g h
  unfold matchTrackTail at h
  split at h
  · cases h
  · split at h
    · cases h
    · next h3 =>
      cases h
      exact ⟨ne_nil_of_isEmpty_false (by simpa using h3), takeWhile_sat _⟩

theorem matchTrackPat_alnum :
    ∀ l g, matchTrackPat l = some g → g ≠ [] ∧ g.all isAlnumA = true := by
  intro l g h
  unfold matchTrackPat at h
  split at h
  · cases h
  · exact matchTrackTail_alnum _ _ h

theorem searchTrack_alnum :
    ∀ l g, searchTrack l = some g → g ≠ [] ∧ g.all isAlnumA = true := by
  intro l
  induction l with
  | nil => intro g h; cases h
  | cons c t ih =>
    intro g h
    unfold searchTrack at h
    cases hp : matchTrackPat (c :: t) with
    | some g' =>
      rw [hp] at h
      cases h
      exact matchTrackPat_alnum _ _ hp
    | none => rw [hp] at h; exact ih g h

theorem pyStripL_canonical (idL : List Char) (hne : idL ≠ [])
    (hal : idL.all isAlnumA = true) :
    pyStripL ("open.spotify.com/track/".toList ++ idL) =
      "open.spotify.com/track/".toList ++ idL := by
  unfold pyStripL
  have h1 : ("open.spotify.com/track/".toList ++ idL).dropWhile isPySpace =
      "open.spotify.com/track/".toList ++ idL := rfl
  rw [h1, List.reverse_append]
  cases hi : idL.reverse with
  | nil => exact absurd (by simpa using congrArg List.reverse hi) hne
  | cons c t =>
    have hc : isAlnumA c = true := by
      have hmem : c ∈ idL := by
        rw [← List.mem_reverse, hi]; exact List.mem_cons_self c t
      exact List.all_eq_true.mp hal c hmem
    have hdrop : (idL.reverse ++ "open.spotify.com/track/".toList.reverse).dropWhile
        isPySpace = idL.reverse ++ "open.spotify.com/track/".toList.reverse := by
      rw [hi, List.cons_append, List.dropWhile_cons, alnum_not_space hc]
      simp
    rw [hi] at hdrop
    rw [hdrop, ← hi, List.reverse_append, List.reverse_reverse, List.reverse_reverse]

theorem matchTrackPat_canonical (idL : List Char) (hne : idL ≠ [])
    (hal : idL.all isAlnumA = true) :
    matchTrackPat ("open.spotify.com/track/".toList ++ idL) = some idL := by
  have h0 : "open.spotify.com/track/".toList ++ idL =
      "open.spotify.com/".toList ++ ("track/".toList ++ idL) := rfl
  rw [h0]
  unfold matchTrackPat
  rw [matchLit_append]
  show matchTrackTail (skipEmbed (skipIntl ("track/".toList ++ idL))) = some idL
  have h1 : skipIntl ("track/".toList ++ idL) = "track/".toList ++ idL := rfl
  have h2 : skipEmbed ("track/".toList ++ idL) = "track/".toList ++ idL := rfl
  rw [h1, h2]
  unfold matchTrackTail
  rw [matchLit_append]
  show (if (idL.takeWhile isAlnumA).isEmpty = true then none
    else some (idL.takeWhile isAlnumA)) = some idL
  rw [takeWhile_eq_self_of_all idL hal]
  have h3 : idL.isEmpty = false := by
    cases idL with
    | nil => exact absurd rfl hne
    | cons c t => rfl
  simp [h3]

theorem searchTrack_canonical (idL : List Char) (hne : idL ≠ [])
    (hal : idL.all isAlnumA = true) :
    searchTrack ("open.spotify.com/track/".toList ++ idL) = some idL := by
  have hpat := matchTrackPat_canonical idL hne hal
  exact (by
    show (match matchTrackPat ('o' :: ("pen.spotify.com/track/".toList ++ idL)) with
      | some g => some g
      | none => searchTrack ("pen.spotify.com/track/".toList ++ idL)) = some idL
    rw [show ('o' :: ("pen.spotify.com/track/".toList ++ idL)) =
      "open.spotify.com/track/".toList ++ idL from rfl, hpat])

theorem trackIdCore_canonical (idL : List Char) (hne : idL ≠ [])
    (hal : idL.all isAlnumA = true) :
    trackIdCore ("open.spotify.com/track/".toList ++ idL) = some idL := by
  unfold trackIdCore
  have hempty : ("open.spotify.com/track/".toList ++ idL).isEmpty = false := rfl
  have hstrip := pyStripL_canonical idL hne hal
  have hsw : startsWithL "spotify:track:".toList
      ("open.spotify.com/track/".toList ++ idL) = false := rfl
  have hsearch := searchTrack_canonical idL hne hal
  simp only [hempty, Bool.false_eq_true, if_false, hstrip, hsw, hsearch]

/-! ## Claims C7, C8 — identifier extraction -/

/-- C7 (corrected): extraction is total and never raises — for every input
string it returns either an identifier or the no-identifier value — but the
identifier is *not* always non-empty and alphanumeric (see the
counterexample); the non-empty-alphanumeric guarantee does hold for every
identifier produced by the canonical URL-pattern search. -/
theorem C7_extraction_total :
    (∀ s : String, track_id_from_url s = none ∨ ∃ id, track_id_from_url s = some id) ∧
    (∀ l g, searchTrack l = some g → g ≠ [] ∧ g.all isAlnumA = true) := by
  constructor
  · intro s
    cases h : track_id_from_url s with
    | none => exact Or.inl rfl
    | some id => exact Or.inr ⟨id, rfl⟩
  · exact searchTrack_alnum

/-- Witness for C7: the canonical-pattern guarantee at a concrete URL. -/
theorem C7_extraction_total_witness :
    "abc123".toList ≠ [] ∧ "abc123".toList.all isAlnumA = true :=
  C7_extraction_total.2 "https://open.spotify.com/track/abc123".toList
    "abc123".toList (by decide)

/-- Counterexample to C7 as stated: the URI-scheme branch returns the last
colon-separated segment verbatim, so `"spotify:track:"` yields the *empty*
identifier rather than a non-empty alphanumeric one or none. -/
theorem C7_counterexample :
    track_id_from_url "spotify:track:" = some "" ∧
    ¬(track_id_from_url "spotify:track:" = none ∨
      ∃ id, track_id_from_url "spotify:track:" = some id ∧ id ≠ "" ∧
        id.toList.all isAlnumA = true) := by
  have he : track_id_from_url "spotify:track:" = some "" := by decide
  refine ⟨he, ?_⟩
  rintro (h | ⟨id, hid, hne, _⟩)
  · rw [he] at h; cases h
  · rw [he] at hid
    have : "" = id := by injection hid
    exact hne this.symm

/-- C8 (corrected): re-extraction from a canonical `…/track/<id>` URL
returns the same identifier *provided* the identifier is non-empty and
alphanumeric (identifiers from the URI-scheme and path-fallback branches
need not be, and then re-extraction can differ — see the counterexample). -/
theorem C8_idempotent (s id : String) (h : track_id_from_url s = some id)
    (hne : id ≠ "") (hal : id.toList.all isAlnumA = true) :
    track_id_from_url ("open.spotify.com/track/" ++ id) = some id := by
  have hl : ("open.spotify.com/track/" ++ id).toList =
      "open.spotify.com/track/".toList ++ id.toList := rfl
  have hne' : id.toList ≠ [] := by
    intro h0
    apply hne
    calc id = String.mk id.toList := rfl
    _ = String.mk [] := by rw [h0]
    _ = "" := rfl
  unfold track_id_from_url
  rw [hl, trackIdCore_canonical id.toList hne' hal]
  rfl

/-- Witness for C8 at a concrete extraction. -/
theorem C8_idempotent_witness :
    track_id_from_url ("open.spotify.com/track/" ++ "abc123") = some "abc123" :=
  C8_idempotent "spotify:track:abc123" "abc123" (by decide) (by decide) (by decide)

/-- Counterexample to C8 as stated: the URI-scheme branch returns
`"abc def"` for `"spotify:track:abc def"`, and re-extraction from the
canonical URL built from it stops at the space, returning `"abc"`. -/
theorem C8_counterexample :
    track_id_from_url "spotify:track:abc def" = some "abc def" ∧
    track_id_from_url ("open.spotify.com/track/" ++ "abc def") = some "abc" ∧
    ("abc" : String) ≠ "abc def" :=
  ⟨by decide, by decide, by decide⟩

/-! ## Claim C9 — duration formatting -/

/-- C9 (confirmed): `_format_duration` yields `""` on non-numeric (in the
Python sense: not an `int`, where `bool` counts as `int`), missing, zero or
negative input; a positive count of milliseconds below one hour is rendered
`M:SS` with no hour segment, and one of an hour or more is rendered
`H:MM:SS`; in particular `0 ↦ ""`, `59999 ↦ "0:59"`, `3600000 ↦ "1:00:00"`. -/
theorem C9_format_duration :
    (∀ v : JVal, pyToInt v = none → _format_duration v = "") ∧
    (∀ d : Int, d ≤ 0 → _format_duration (.num d) = "") ∧
    (∀ d : Int, 0 < d → d < 3600000 →
      _format_duration (.num d) =
        toString (d.toNat / 1000 / 60) ++ ":" ++ padTwo (d.toNat / 1000 % 60)) ∧
    (∀ d : Int, (3600000 : Int) ≤ d →
      _format_duration (.num d) =
        toString (d.toNat / 1000 / 3600) ++ ":" ++ padTwo (d.toNat / 1000 / 60 % 60) ++
          ":" ++ padTwo (d.toNat / 1000 % 60)) ∧
    _format_duration (.num 0) = "" ∧ _format_duration (.num 59999) = "0:59" ∧
    _format_duration (.num 3600000) = "1:00:00" := by
  refine ⟨?_, ?_, ?_, ?_, by decide, by decide, by decide⟩
  · intro v h
    unfold _format_duration
    rw [h]
  · intro d h
    unfold _format_duration
    show (if d ≤ 0 then "" else _) = ""
    rw [if_pos h]
  · intro d h1 h2
    unfold _format_duration
    show (if d ≤ 0 then "" else
      if d.toNat / 1000 / 60 / 60 > 0 then
        toString (d.toNat / 1000 / 60 / 60) ++ ":" ++ padTwo (d.toNat / 1000 / 60 % 60) ++
          ":" ++ padTwo (d.toNat / 1000 % 60)
      else toString (d.toNat / 1000 / 60 % 60) ++ ":" ++ padTwo (d.toNat / 1000 % 60)) = _
    rw [if_neg (by omega)]
    have hh : d.toNat / 1000 / 60 / 60 = 0 := by omega
    have hm : d.toNat / 1000 / 60 % 60 = d.toNat / 1000 / 60 := by omega
    rw [if_neg (by omega), hm]
  · intro d h1
    unfold _format_duration
    show (if d ≤ 0 then "" else
      if d.toNat / 1000 / 60 / 60 > 0 then
        toString (d.toNat / 1000 / 60 / 60) ++ ":" ++ padTwo (d.toNat / 1000 / 60 % 60) ++
          ":" ++ padTwo (d.toNat / 1000 % 60)
      else toString (d.toNat / 1000 / 60 % 60) ++ ":" ++ padTwo (d.toNat / 1000 % 60)) = _
    rw [if_neg (by omega)]
    have hh : d.toNat / 1000 / 60 / 60 = d.toNat / 1000 / 3600 := by omega
    rw [if_pos (by omega), hh]

/-- Witness for C9 at 59999 ms. -/
theorem C9_format_duration_witness :
    _format_duration (.num 59999) =
      toString ((59999 : Int).toNat / 1000 / 60) ++ ":" ++
        padTwo ((59999 : Int).toNat / 1000 % 60) :=
  C9_format_duration.2.2.1 59999 (by decide) (by decide)

/-! ## World-evolution lemmas for the token layer -/

theorem doRequest_world (req : HttpRequest) (w : World) :
    (doRequest req w).2 = { w with calls := w.calls ++ [req] } := by
  unfold doRequest
  cases w.http w.calls.length req <;> rfl

theorem ccHandle_cases (now : Rat) (r : HttpResponse) (w1 : World) :
    (∃ e, ccHandleResponse now r w1 = (.error e, w1)) ∨
    (∃ t ex, ccHandleResponse now r w1 = (.ok t, { w1 with tokenCC := ⟨t, ex⟩ }) ∧ t ≠ "") := by
  simp only [ccHandleResponse]
  split
  · exact Or.inl ⟨_, rfl⟩
  · split
    · exact Or.inl ⟨_, rfl⟩
    · split
      · exact Or.inl ⟨_, rfl⟩
      · split
        · exact Or.inl ⟨_, rfl⟩
        · next hne =>
          split
          · exact Or.inl ⟨_, rfl⟩
          · exact Or.inr ⟨_, _, rfl, by simpa using hne⟩

theorem wpHandle_cases (now : Rat) (r : HttpResponse) (w1 : World) :
    (∃ e, wpHandleResponse now r w1 = (.error e, w1)) ∨
    (∃ t ex, wpHandleResponse now r w1 = (.ok t, { w1 with tokenWP := ⟨t, ex⟩ }) ∧ t ≠ "") := by
  simp only [wpHandleResponse]
  split
  · exact Or.inl ⟨_, rfl⟩
  · split
    · exact Or.inl ⟨_, rfl⟩
    · split
      · exact Or.inl ⟨_, rfl⟩
      · split
        · exact Or.inl ⟨_, rfl⟩
        · next hne =>
          split
          · exact Or.inl ⟨_, rfl⟩
          · exact Or.inr ⟨_, _, rfl, by simpa using hne⟩

theorem ccHandle_world (now : Rat) (r : HttpResponse) (w1 : World) :
    (ccHandleResponse now r w1).2.calls = w1.calls ∧
    (ccHandleResponse now r w1).2.genreCache = w1.genreCache ∧
    (ccHandleResponse now r w1).2.tokenWP = w1.tokenWP := by
  rcases ccHandle_cases now r w1 with ⟨e, h⟩ | ⟨t, ex, h, _⟩ <;> rw [h] <;> exact ⟨rfl, rfl, rfl⟩

theorem wpHandle_world (now : Rat) (r : HttpResponse) (w1 : World) :
    (wpHandleResponse now r w1).2.calls = w1.calls ∧
    (wpHandleResponse now r w1).2.genreCache = w1.genreCache ∧
    (wpHandleResponse now r w1).2.tokenCC = w1.tokenCC := by
  rcases wpHandle_cases now r w1 with ⟨e, h⟩ | ⟨t, ex, h, _⟩ <;> rw [h] <;> exact ⟨rfl, rfl, rfl⟩

theorem ccHandle_ok (now : Rat) (r : HttpResponse) (w1 : World) (t : String)
    (h : (ccHandleResponse now r w1).1 = .ok t) :
    t ≠ "" ∧ ∃ ex, (ccHandleResponse now r w1).2.tokenCC = ⟨t, ex⟩ := by
  rcases ccHandle_cases now r w1 with ⟨e, he⟩ | ⟨t', ex, he, hne⟩
  · rw [he] at h; cases h
  · rw [he] at h
    cases h
    exact ⟨hne, ex, by rw [he]⟩

theorem ccHandle_err (now : Rat) (r : HttpResponse) (w1 : World) (e : PyErr)
    (h : (ccHandleResponse now r w1).1 = .error e) :
    (ccHandleResponse now r w1).2.tokenCC = w1.tokenCC := by
  rcases ccHandle_cases now r w1 with ⟨e', he⟩ | ⟨t', ex, he, hne⟩
  · rw [he]
  · rw [he] at h; cases h

theorem wpHandle_ok (now : Rat) (r : HttpResponse) (w1 : World) (t : String)
    (h : (wpHandleResponse now r w1).1 = .ok t) :
    t ≠ "" ∧ ∃ ex, (wpHandleResponse now r w1).2.tokenWP = ⟨t, ex⟩ := by
  rcases wpHandle_cases now r w1 with ⟨e, he⟩ | ⟨t', ex, he, hne⟩
  · rw [he] at h; cases h
  · rw [he] at h
    cases h
    exact ⟨hne, ex, by rw [he]⟩

theorem wpHandle_err (now : Rat) (r : HttpResponse) (w1 : World) (e : PyErr)
    (h : (wpHandleResponse now r w1).1 = .error e) :
    (wpHandleResponse now r w1).2.tokenWP = w1.tokenWP := by
  rcases wpHandle_cases now r w1 with ⟨e', he⟩ | ⟨t', ex, he, hne⟩
  · rw [he]
  · rw [he] at h; cases h

theorem callsExtend_refl (P : HttpRequest → Bool) (w : World) : CallsExtend P w w :=
  ⟨[], (List.append_nil _).symm, rfl⟩

theorem callsExtend_trans {P : HttpRequest → Bool} {w w' w'' : World}
    (h1 : CallsExtend P w w') (h2 : CallsExtend P w' w'') : CallsExtend P w w'' := by
  obtain ⟨e1, hc1, ha1⟩ := h1
  obtain ⟨e2, hc2, ha2⟩ := h2
  exact ⟨e1 ++ e2, by rw [hc2, hc1, List.append_assoc],
    by rw [List.all_append, ha1, ha2]; rfl⟩

theorem callsExtend_mono {P Q : HttpRequest → Bool} {w w' : World}
    (hpq : ∀ r, P r = true → Q r = true) (h : CallsExtend P w w') : CallsExtend Q w w' := by
  obtain ⟨e1, hc1, ha1⟩ := h
  refine ⟨e1, hc1, List.all_eq_true.mpr fun a ha => hpq a (List.all_eq_true.mp ha1 a ha)⟩

theorem cachePreserve_refl (w : World) : CachePreserve w w := fun _ _ h => h

theorem cachePreserve_trans {w w' w'' : World} (h1 : CachePreserve w w')
    (h2 : CachePreserve w' w'') : CachePreserve w w'' :=
  fun k v h => h2 k v (h1 k v h)

theorem cachePreserve_of_eq {w w' : World} (h : w'.genreCache = w.genreCache) :
    CachePreserve w w' := fun k v hl => by rw [h]; exact hl

/-- `_get_client_credentials_token` adds only token calls to the log and
leaves the genre cache and the web-player cache entry untouched. -/
theorem cc_world (f : Bool) (w : World) :
    CallsExtend isTokenCall w (_get_client_credentials_token f w).2 ∧
    (_get_client_credentials_token f w).2.genreCache = w.genreCache ∧
    (_get_client_credentials_token f w).2.tokenWP = w.tokenWP := by
  simp only [_get_client_credentials_token]
  split
  · exact ⟨callsExtend_refl _ _, rfl, rfl⟩
  · split
    · exact ⟨callsExtend_refl _ _, rfl, rfl⟩
    · cases hreq : doRequest (.postToken (pyStrip (w.envClientId.getD ""))
        (pyStrip (w.envClientSecret.getD ""))) w with
      | mk r w1 =>
        have hw1 : w1 = { w with calls := w.calls ++ [.postToken
            (pyStrip (w.envClientId.getD "")) (pyStrip (w.envClientSecret.getD ""))] } := by
          have h2 := congrArg Prod.snd hreq
          rw [doRequest_world] at h2
          exact h2.symm
        cases r with
        | error e =>
          subst hw1
          exact ⟨⟨[HttpRequest.postToken _ _], rfl, rfl⟩, rfl, rfl⟩
        | ok resp =>
          subst hw1
          obtain ⟨hc, hg, ht⟩ := ccHandle_world w.now resp _
          refine ⟨⟨[HttpRequest.postToken (pyStrip (w.envClientId.getD ""))
            (pyStrip (w.envClientSecret.getD ""))], ?_, rfl⟩, ?_, ?_⟩
          · rw [hc]
          · rw [hg]
          · rw [ht]

/-- `_get_web_player_token` adds only token calls to the log and leaves the
genre cache and the client-credentials cache entry untouched. -/
theorem wp_world (f : Bool) (w : World) :
    CallsExtend isTokenCall w (_get_web_player_token f w).2 ∧
    (_get_web_player_token f w).2.genreCache = w.genreCache ∧
    (_get_web_player_token f w).2.tokenCC = w.tokenCC := by
  simp only [_get_web_player_token]
  split
  · exact ⟨callsExtend_refl _ _, rfl, rfl⟩
  · cases hreq : doRequest .getWebToken w with
    | mk r w1 =>
      have hw1 : w1 = { w with calls := w.calls ++ [.getWebToken] } := by
        have h2 := congrArg Prod.snd hreq
        rw [doRequest_world] at h2
        exact h2.symm
      cases r with
      | error e =>
        subst hw1
        exact ⟨⟨[HttpRequest.getWebToken], rfl, rfl⟩, rfl, rfl⟩
      | ok resp =>
        subst hw1
        obtain ⟨hc, hg, ht⟩ := wpHandle_world w.now resp _
        refine ⟨⟨[HttpRequest.getWebToken], ?_, rfl⟩, ?_, ?_⟩
        · rw [hc]
        · rw [hg]
        · rw [ht]

theorem getAnySecond_world (e1 : PyErr) (f : Bool) (w1 : World) :
    CallsExtend isTokenCall w1 (getAnySecond e1 f w1).2 ∧
    (getAnySecond e1 f w1).2.genreCache = w1.genreCache := by
  unfold getAnySecond
  cases hwp : _get_web_player_token f w1 with
  | mk r2 w2 =>
    have h2 := wp_world f w1
    rw [hwp] at h2
    cases r2 <;> exact ⟨h2.1, h2.2.1⟩

/-- `_get_spotify_access_token` adds only token calls and preserves the
genre cache. -/
theorem getAny_world (f : Bool) (w : World) :
    CallsExtend isTokenCall w (_get_spotify_access_token f w).2 ∧
    (_get_spotify_access_token f w).2.genreCache = w.genreCache := by
  unfold _get_spotify_access_token
  cases hcc : _get_client_credentials_token f w with
  | mk r1 w1 =>
    have h1 := cc_world f w
    rw [hcc] at h1
    cases r1 with
    | ok t => exact ⟨h1.1, h1.2.1⟩
    | error e1 =>
      have h2 := getAnySecond_world e1 f w1
      exact ⟨callsExtend_trans h1.1 h2.1, h2.2.trans h1.2.1⟩

theorem cc_token_nonempty (f : Bool) (w : World) (t : String)
    (h : (_get_client_credentials_token f w).1 = .ok t) : t ≠ "" := by
  simp only [_get_client_credentials_token] at h
  split at h
  · cases h
  · split at h
    · next hcond =>
      cases h
      simp only [Bool.and_eq_true, bne_iff_ne] at hcond
      exact hcond.1.2
    · cases hreq : doRequest (.postToken (pyStrip (w.envClientId.getD ""))
          (pyStrip (w.envClientSecret.getD ""))) w with
      | mk r w1 =>
        rw [hreq] at h
        cases r with
        | error e => cases h
        | ok resp => exact (ccHandle_ok w.now resp w1 t h).1

theorem wp_token_nonempty (f : Bool) (w : World) (t : String)
    (h : (_get_web_player_token f w).1 = .ok t) : t ≠ "" := by
  simp only [_get_web_player_token] at h
  split at h
  · next hcond =>
    cases h
    simp only [Bool.and_eq_true, bne_iff_ne] at hcond
    exact hcond.1.2
  · cases hreq : doRequest .getWebToken w with
    | mk r w1 =>
      rw [hreq] at h
      cases r with
      | error e => cases h
      | ok resp => exact (wpHandle_ok w.now resp w1 t h).1

theorem getAnySecond_token_nonempty (e1 : PyErr) (f : Bool) (w1 : World) (t : String)
    (h : (getAnySecond e1 f w1).1 = .ok t) : t ≠ "" := by
  unfold getAnySecond at h
  cases hwp : _get_web_player_token f w1 with
  | mk r2 w2 =>
    rw [hwp] at h
    cases r2 with
    | ok t2 =>
      cases h
      exact wp_token_nonempty f w1 t (by rw [hwp])
    | error e2 => cases h

theorem getAny_token_nonempty (f : Bool) (w : World) (t : String)
    (h : (_get_spotify_access_token f w).1 = .ok t) : t ≠ "" := by
  unfold _get_spotify_access_token at h
  cases hcc : _get_client_credentials_token f w with
  | mk r1 w1 =>
    rw [hcc] at h
    cases r1 with
    | ok t0 =>
      cases h
      exact cc_token_nonempty f w t (by rw [hcc])
    | error e1 => exact getAnySecond_token_nonempty e1 f w1 t h

/-! ## Claim C4 — provider order and aggregated failure -/

/-- C4 (confirmed): `_get_spotify_access_token` tries `ClientCredentials`
first and `WebPlayer` second, returns the first success, raises the
aggregated `RuntimeError` (whose message concatenates both providers'
failure reasons, `aggregateMsg`) exactly when both fail, and a returned
token is never the empty string. -/
theorem C4_token_fallback (force : Bool) (w : World) :
    (∀ t w1, _get_client_credentials_token force w = (.ok t, w1) →
      _get_spotify_access_token force w = (.ok t, w1)) ∧
    (∀ e1 w1 t w2, _get_client_credentials_token force w = (.error e1, w1) →
      _get_web_player_token force w1 = (.ok t, w2) →
      _get_spotify_access_token force w = (.ok t, w2)) ∧
    (∀ e1 w1 e2 w2, _get_client_credentials_token force w = (.error e1, w1) →
      _get_web_player_token force w1 = (.error e2, w2) →
      _get_spotify_access_token force w =
        (.error (.runtimeError (aggregateMsg e1 e2)), w2)) ∧
    (∀ t w1, _get_spotify_access_token force w = (.ok t, w1) → t ≠ "") := by
  refine ⟨?_, ?_, ?_, ?_⟩
  · intro t w1 h
    unfold _get_spotify_access_token
    rw [h]
  · intro e1 w1 t w2 h1 h2
    unfold _get_spotify_access_token
    rw [h1]
    show getAnySecond e1 force w1 = (.ok t, w2)
    unfold getAnySecond
    rw [h2]
  · intro e1 w1 e2 w2 h1 h2
    unfold _get_spotify_access_token
    rw [h1]
    show getAnySecond e1 force w1 =
      (.error (.runtimeError (aggregateMsg e1 e2)), w2)
    unfold getAnySecond
    rw [h2]
  · intro t w1 h
    exact getAny_token_nonempty force w t (by rw [h])

/-- Witness for C4: with no configured secrets and an unreachable web token
endpoint, both providers fail and the aggregated error is raised. -/
theorem C4_token_fallback_witness :
    _get_spotify_access_token false Winert =
      (.error (.runtimeError (aggregateMsg
        (.valueError "SPOTIFY_CLIENT_ID / SPOTIFY_CLIENT_SECRET are not configured.")
        (.transportError "offline"))), { Winert with calls := [.getWebToken] }) :=
  (C4_token_fallback false Winert).2.2.1 _ _ _ _ rfl rfl

/-! ## Claim C5 — token caching -/

/-- C5 (corrected): for each provider, a `getToken` call with
`forceRefresh` false, a non-empty cached token and `now < expiresAt − 30`
returns the cached token with zero network calls and no state change —
*provided*, for the `ClientCredentials` provider, that both secrets are
configured (the configuration check precedes the cache check, see the
counterexample); any other call performs exactly one network call to that
provider, and when it returns a token, that token is non-empty and is
stored in the provider's cache entry (with a computed expiry); a failed
refresh leaves the cache entry unchanged. -/
theorem C5_token_caching (w : World) :
    (pyStrip (w.envClientId.getD "") ≠ "" → pyStrip (w.envClientSecret.getD "") ≠ "" →
      w.tokenCC.token ≠ "" → w.now < w.tokenCC.expiresAt - 30 →
      _get_client_credentials_token false w = (.ok w.tokenCC.token, w)) ∧
    (∀ force, pyStrip (w.envClientId.getD "") ≠ "" →
      pyStrip (w.envClientSecret.getD "") ≠ "" →
      (force = true ∨ w.tokenCC.token = "" ∨ ¬ w.now < w.tokenCC.expiresAt - 30) →
      (_get_client_credentials_token force w).2.calls =
          w.calls ++ [.postToken (pyStrip (w.envClientId.getD ""))
            (pyStrip (w.envClientSecret.getD ""))] ∧
        (∀ t, (_get_client_credentials_token force w).1 = .ok t →
          t ≠ "" ∧ ∃ ex, (_get_client_credentials_token force w).2.tokenCC = ⟨t, ex⟩) ∧
        (∀ e, (_get_client_credentials_token force w).1 = .error e →
          (_get_client_credentials_token force w).2.tokenCC = w.tokenCC)) ∧
    (w.tokenWP.token ≠ "" → w.now < w.tokenWP.expiresAt - 30 →
      _get_web_player_token false w = (.ok w.tokenWP.token, w)) ∧
    (∀ force, (force = true ∨ w.tokenWP.token = "" ∨ ¬ w.now < w.tokenWP.expiresAt - 30) →
      (_get_web_player_token force w).2.calls = w.calls ++ [.getWebToken] ∧
        (∀ t, (_get_web_player_token force w).1 = .ok t →
          t ≠ "" ∧ ∃ ex, (_get_web_player_token force w).2.tokenWP = ⟨t, ex⟩) ∧
        (∀ e, (_get_web_player_token force w).1 = .error e →
          (_get_web_player_token force w).2.tokenWP = w.tokenWP)) := by
  refine ⟨?_, ?_, ?_, ?_⟩
  · intro h1 h2 h3 h4
    simp only [_get_client_credentials_token]
    rw [if_neg (by simp [h1, h2]), if_pos (by simp [h3, h4])]
  · intro force h1 h2 hfr
    have hcond : ¬(!force && w.tokenCC.token != "" &&
        decide (w.now < w.tokenCC.expiresAt - 30)) = true := by
      rcases hfr with rfl | h | h
      · simp
      · simp [h]
      · simp [h]
    simp only [_get_client_credentials_token]
    rw [if_neg (by simp [h1, h2]), if_neg hcond]
    cases hreq : doRequest (.postToken (pyStrip (w.envClientId.getD ""))
        (pyStrip (w.envClientSecret.getD ""))) w with
    | mk r w1 =>
      have hw1 : w1 = { w with calls := w.calls ++ [.postToken
          (pyStrip (w.envClientId.getD "")) (pyStrip (w.envClientSecret.getD ""))] } := by
        have hsnd := congrArg Prod.snd hreq
        rw [doRequest_world] at hsnd
        exact hsnd.symm
      cases r with
      | error e =>
        subst hw1
        refine ⟨rfl, ?_, ?_⟩
        · intro t ht
          exact nomatch ht
        · intro e' he
          rfl
      | ok resp =>
        subst hw1
        refine ⟨(ccHandle_world w.now resp _).1, ?_, ?_⟩
        · intro t ht
          exact ccHandle_ok w.now resp _ t ht
        · intro e he
          exact ccHandle_err w.now resp _ e he
  · intro h3 h4
    simp only [_get_web_player_token]
    rw [if_pos (by simp [h3, h4])]
  · intro force hfr
    have hcond : ¬(!force && w.tokenWP.token != "" &&
        decide (w.now < w.tokenWP.expiresAt - 30)) = true := by
      rcases hfr with rfl | h | h
      · simp
      · simp [h]
      · simp [h]
    simp only [_get_web_player_token]
    rw [if_neg hcond]
    cases hreq : doRequest .getWebToken w with
    | mk r w1 =>
      have hw1 : w1 = { w with calls := w.calls ++ [.getWebToken] } := by
        have hsnd := congrArg Prod.snd hreq
        rw [doRequest_world] at hsnd
        exact hsnd.symm
      cases r with
      | error e =>
        subst hw1
        refine ⟨rfl, ?_, ?_⟩
        · intro t ht
          exact nomatch ht
        · intro e' he
          rfl
      | ok resp =>
        subst hw1
        refine ⟨(wpHandle_world w.now resp _).1, ?_, ?_⟩
        · intro t ht
          exact wpHandle_ok w.now resp _ t ht
        · intro e he
          exact wpHandle_err w.now resp _ e he

/-- Witness for C5: a valid cached client-credentials token is returned
as-is, with no network call and no state change. -/
theorem C5_token_caching_witness :
    _get_client_credentials_token false Wcached = (.ok "cached-token", Wcached) :=
  (C5_token_caching Wcached).1 (by decide) (by decide) (by decide)
    (by norm_num [Wcached, Winert])

/-- Counterexample to C5 as stated: with unset secrets the
`ClientCredentials` provider raises its configuration `ValueError` even
though a valid cached token is present (the claim says the cached token is
returned); and a failing refresh (HTTP 500) performs its one network call
but does *not* update the cache with any new token. -/
theorem C5_counterexample :
    (WnoCfg.tokenCC.token = "cached-token" ∧
      WnoCfg.now < WnoCfg.tokenCC.expiresAt - 30) ∧
    _get_client_credentials_token false WnoCfg =
      (.error (.valueError
        "SPOTIFY_CLIENT_ID / SPOTIFY_CLIENT_SECRET are not configured."), WnoCfg) ∧
    (_get_client_credentials_token true Wcfg500).1 = .error (.httpStatusError 500) ∧
    (_get_client_credentials_token true Wcfg500).2.tokenCC = Wcfg500.tokenCC :=
  ⟨⟨rfl, by norm_num [WnoCfg, Winert]⟩, rfl, rfl, rfl⟩

/-! ## Claim C3 — authorized GET with one 401 retry -/

theorem countApi_of_tokenExtend (url : String) {w w' : World}
    (h : CallsExtend isTokenCall w w') :
    countApi url w'.calls = countApi url w.calls := by
  obtain ⟨extra, hc, hall⟩ := h
  rw [hc]
  unfold countApi
  rw [List.countP_append]
  have hz : extra.countP (isApiCall url) = 0 := by
    rw [List.countP_eq_zero]
    intro a ha
    have hta := List.all_eq_true.mp hall a ha
    cases a <;> simp_all [isTokenCall, isApiCall]
  omega

/-- C3 (corrected): a 401 on the first attempt force-refreshes the token
and retries exactly once (exactly two metadata `GET`s for the url are
issued), and a 401 on the second attempt raises `HTTPError(401)`; any other
*4xx/5xx* status on the first attempt raises immediately with no retry.
(As literally stated the claim fails for non-2xx statuses outside
`[400,600)`: `raise_for_status` does not raise on e.g. 304, see the
counterexample.) -/
theorem C3_api_retry (url : String) (w : World) :
    (∀ t0 w1 r0 w2, _get_spotify_access_token false w = (.ok t0, w1) →
      doRequest (.getApi url t0) w1 = (.ok r0, w2) →
      r0.status ≠ 401 → badStatus r0.status = true →
      _spotify_api_get url w = (.error (.httpStatusError r0.status), w2)) ∧
    (∀ t0 w1 r0 w2 t1 w3 r1 w4, _get_spotify_access_token false w = (.ok t0, w1) →
      doRequest (.getApi url t0) w1 = (.ok r0, w2) → r0.status = 401 →
      _get_spotify_access_token true w2 = (.ok t1, w3) →
      doRequest (.getApi url t1) w3 = (.ok r1, w4) →
      _spotify_api_get url w = apiFinish r1 w4 ∧
      countApi url w4.calls = countApi url w.calls + 2) ∧
    (∀ t0 w1 r0 w2 t1 w3 r1 w4, _get_spotify_access_token false w = (.ok t0, w1) →
      doRequest (.getApi url t0) w1 = (.ok r0, w2) → r0.status = 401 →
      _get_spotify_access_token true w2 = (.ok t1, w3) →
      doRequest (.getApi url t1) w3 = (.ok r1, w4) → r1.status = 401 →
      _spotify_api_get url w = (.error (.httpStatusError 401), w4)) := by
  have hmain : ∀ t0 w1 r0 w2, _get_spotify_access_token false w = (.ok t0, w1) →
      doRequest (.getApi url t0) w1 = (.ok r0, w2) →
      _spotify_api_get url w =
        (if r0.status == 401 then apiAfter401 url w2 else apiFinish r0 w2) := by
    intro t0 w1 r0 w2 h1 h2
    unfold _spotify_api_get
    rw [h1]
    show apiFirstFetch url t0 w1 =
      (if r0.status == 401 then apiAfter401 url w2 else apiFinish r0 w2)
    unfold apiFirstFetch
    rw [h2]
  have h401 : ∀ w2 t1 w3 r1 w4,
      _get_spotify_access_token true w2 = (.ok t1, w3) →
      doRequest (.getApi url t1) w3 = (.ok r1, w4) →
      apiAfter401 url w2 = apiFinish r1 w4 := by
    intro w2 t1 w3 r1 w4 h3 h4
    unfold apiAfter401
    rw [h3]
    show apiFetch1 url t1 w3 = apiFinish r1 w4
    unfold apiFetch1
    rw [h4]
  refine ⟨?_, ?_, ?_⟩
  · intro t0 w1 r0 w2 h1 h2 hne hbad
    rw [hmain t0 w1 r0 w2 h1 h2, if_neg (by simp [hne])]
    unfold apiFinish
    rw [if_pos hbad]
  · intro t0 w1 r0 w2 t1 w3 r1 w4 h1 h2 hs0 h3 h4
    constructor
    · rw [hmain t0 w1 r0 w2 h1 h2, if_pos (by simp [hs0]),
        h401 w2 t1 w3 r1 w4 h3 h4]
    · have hc1 : countApi url w1.calls = countApi url w.calls := by
        have h := countApi_of_tokenExtend url (getAny_world false w).1
        rw [h1] at h
        exact h
      have hw2 : w2 = { w1 with calls := w1.calls ++ [.getApi url t0] } := by
        have hs := congrArg Prod.snd h2
        rw [doRequest_world] at hs
        exact hs.symm
      have hc2 : countApi url w2.calls = countApi url w1.calls + 1 := by
        subst hw2
        unfold countApi
        rw [List.countP_append]
        simp [isApiCall]
      have hc3 : countApi url w3.calls = countApi url w2.calls := by
        have h := countApi_of_tokenExtend url (getAny_world true w2).1
        rw [h3] at h
        exact h
      have hw4 : w4 = { w3 with calls := w3.calls ++ [.getApi url t1] } := by
        have hs := congrArg Prod.snd h4
        rw [doRequest_world] at hs
        exact hs.symm
      have hc4 : countApi url w4.calls = countApi url w3.calls + 1 := by
        subst hw4
        unfold countApi
        rw [List.countP_append]
        simp [isApiCall]
      omega
  · intro t0 w1 r0 w2 t1 w3 r1 w4 h1 h2 hs0 h3 h4 hs1
    rw [hmain t0 w1 r0 w2 h1 h2, if_pos (by simp [hs0]),
      h401 w2 t1 w3 r1 w4 h3 h4]
    unfold apiFinish
    rw [if_pos (by rw [hs1]; decide), hs1]

/-- Witness for C3: a 500 on the first attempt raises at once. -/
theorem C3_api_retry_witness :
    (_spotify_api_get "https://api.spotify.com/v1/tracks/x" Wapi500).1 =
      .error (.httpStatusError 500) := by
  rw [(C3_api_retry "https://api.spotify.com/v1/tracks/x" Wapi500).1 "tok" _
    { status := 500, jsonBody := .ok (.obj []), text := "" } _ rfl rfl
    (by decide) (by decide)]

/-- Counterexample to C3 as stated: a 304 (not a 2xx) with a decodable dict
body on the first attempt does *not* raise — `raise_for_status` only raises
for 4xx/5xx — and the body is returned. -/
theorem C3_counterexample :
    (_spotify_api_get "https://api.spotify.com/v1/tracks/x" Wapi304).1 =
      .ok (.obj []) ∧
    ¬(200 ≤ 304 ∧ 304 < 300) ∧ (304 : Nat) ≠ 401 :=
  ⟨rfl, by decide, by decide⟩

/-! ## World-evolution lemmas for the fetch layer -/

theorem countEmbed_of_extend {w w' : World} (h : CallsExtend notEmbedCall w w') :
    countEmbed w'.calls = countEmbed w.calls := by
  obtain ⟨extra, hc, hall⟩ := h
  rw [hc]
  unfold countEmbed
  rw [List.countP_append]
  have hz : extra.countP isEmbedCall = 0 := by
    rw [List.countP_eq_zero]
    intro a ha
    have hta := List.all_eq_true.mp hall a ha
    cases a <;> simp_all [notEmbedCall, isEmbedCall]
  omega

theorem tokenExtend_notEmbed {w w' : World} (h : CallsExtend isTokenCall w w') :
    CallsExtend notEmbedCall w w' :=
  callsExtend_mono (fun r hr => by cases r <;> simp_all [isTokenCall, notEmbedCall, isEmbedCall]) h

theorem apiFinish_world (r : HttpResponse) (w : World) : (apiFinish r w).2 = w := by
  unfold apiFinish
  split
  · rfl
  · split <;> rfl

theorem apiFetch1_world (url tok1 : String) (w3 : World) :
    CallsExtend notEmbedCall w3 (apiFetch1 url tok1 w3).2 ∧
    (apiFetch1 url tok1 w3).2.genreCache = w3.genreCache := by
  unfold apiFetch1
  cases hreq : doRequest (.getApi url tok1) w3 with
  | mk r w4 =>
    have hw4 : w4 = { w3 with calls := w3.calls ++ [.getApi url tok1] } := by
      have hs := congrArg Prod.snd hreq
      rw [doRequest_world] at hs
      exact hs.symm
    cases r with
    | error e =>
      subst hw4
      exact ⟨⟨[HttpRequest.getApi url tok1], rfl, rfl⟩, rfl⟩
    | ok r1 =>
      subst hw4
      rw [apiFinish_world]
      exact ⟨⟨[HttpRequest.getApi url tok1], rfl, rfl⟩, rfl⟩

theorem apiAfterTokenFail_world (url : String) (w1 : World) :
    CallsExtend notEmbedCall w1 (apiAfterTokenFail url w1).2 ∧
    (apiAfterTokenFail url w1).2.genreCache = w1.genreCache := by
  unfold apiAfterTokenFail
  cases hga : _get_spotify_access_token true w1 with
  | mk r w2 =>
    have hg := getAny_world true w1
    rw [hga] at hg
    cases r with
    | error e1 => exact ⟨tokenExtend_notEmbed hg.1, hg.2⟩
    | ok tok1 =>
      have hf := apiFetch1_world url tok1 w2
      exact ⟨callsExtend_trans (tokenExtend_notEmbed hg.1) hf.1, hf.2.trans hg.2⟩

theorem apiAfter401_world (url : String) (w2 : World) :
    CallsExtend notEmbedCall w2 (apiAfter401 url w2).2 ∧
    (apiAfter401 url w2).2.genreCache = w2.genreCache := by
  unfold apiAfter401
  cases hga : _get_spotify_access_token true w2 with
  | mk r w3 =>
    have hg := getAny_world true w2
    rw [hga] at hg
    cases r with
    | error e1 => exact ⟨tokenExtend_notEmbed hg.1, hg.2⟩
    | ok tok1 =>
      have hf := apiFetch1_world url tok1 w3
      exact ⟨callsExtend_trans (tokenExtend_notEmbed hg.1) hf.1, hf.2.trans hg.2⟩

theorem apiFirstFetch_world (url tok0 : String) (w1 : World) :
    CallsExtend notEmbedCall w1 (apiFirstFetch url tok0 w1).2 ∧
    (apiFirstFetch url tok0 w1).2.genreCache = w1.genreCache := by
  unfold apiFirstFetch
  cases hreq : doRequest (.getApi url tok0) w1 with
  | mk r w2 =>
    have hw2 : w2 = { w1 with calls := w1.calls ++ [.getApi url tok0] } := by
      have hs := congrArg Prod.snd hreq
      rw [doRequest_world] at hs
      exact hs.symm
    cases r with
    | error e =>
      subst hw2
      exact ⟨⟨[HttpRequest.getApi url tok0], rfl, rfl⟩, rfl⟩
    | ok r0 =>
      show CallsExtend notEmbedCall w1
          (if r0.status == 401 then apiAfter401 url w2 else apiFinish r0 w2).2 ∧
        (if r0.status == 401 then apiAfter401 url w2
          else apiFinish r0 w2).2.genreCache = w1.genreCache
      have hstep : CallsExtend notEmbedCall w1 w2 := by
        subst hw2
        exact ⟨[HttpRequest.getApi url tok0], rfl, rfl⟩
      split
      · have ha := apiAfter401_world url w2
        refine ⟨callsExtend_trans hstep ha.1, ha.2.trans ?_⟩
        subst hw2
        rfl
      · rw [apiFinish_world]
        subst hw2
        exact ⟨⟨[HttpRequest.getApi url tok0], rfl, rfl⟩, rfl⟩

theorem api_world (url : String) (w : World) :
    CallsExtend notEmbedCall w (_spotify_api_get url w).2 ∧
    (_spotify_api_get url w).2.genreCache = w.genreCache := by
  unfold _spotify_api_get
  cases hga : _get_spotify_access_token false w with
  | mk r w1 =>
    have hg := getAny_world false w
    rw [hga] at hg
    cases r with
    | error e =>
      have ha := apiAfterTokenFail_world url w1
      exact ⟨callsExtend_trans (tokenExtend_notEmbed hg.1) ha.1, ha.2.trans hg.2⟩
    | ok tok0 =>
      have ha := apiFirstFetch_world url tok0 w1
      exact ⟨callsExtend_trans (tokenExtend_notEmbed hg.1) ha.1, ha.2.trans hg.2⟩

theorem cacheLookup_append (c : List (String × List String)) (p : String × List String)
    (k : String) (v : List String) (h : cacheLookup c k = some v) :
    cacheLookup (c ++ [p]) k = some v := by
  unfold cacheLookup at h ⊢
  rw [List.find?_append]
  cases hf : c.find? (fun q => q.1 == k) with
  | none => rw [hf] at h; cases h
  | some q => rw [hf] at h; simpa using h

theorem populateGenreCache_world (artist_id : String) (w : World) :
    CallsExtend notEmbedCall w (populateGenreCache artist_id w) ∧
    CachePreserve w (populateGenreCache artist_id w) := by
  unfold populateGenreCache
  split
  · exact ⟨callsExtend_refl _ _, cachePreserve_refl _⟩
  · cases hapi : _spotify_api_get ("https://api.spotify.com/v1/artists/" ++ artist_id) w with
    | mk rp wa =>
      have ha := api_world ("https://api.spotify.com/v1/artists/" ++ artist_id) w
      rw [hapi] at ha
      cases rp with
      | ok artist_payload =>
        refine ⟨ha.1, ?_⟩
        intro k v hkv
        exact cacheLookup_append _ _ _ _ (by rw [ha.2]; exact hkv)
      | error e =>
        refine ⟨ha.1, ?_⟩
        intro k v hkv
        exact cacheLookup_append _ _ _ _ (by rw [ha.2]; exact hkv)

theorem artistLoop_world (entries : List JVal) :
    ∀ artists genres w,
      CallsExtend notEmbedCall w (artistLoop entries artists genres w).2 ∧
      CachePreserve w (artistLoop entries artists genres w).2 := by
  induction entries with
  | nil => exact fun a g w => ⟨callsExtend_refl _ _, cachePreserve_refl _⟩
  | cons entry rest ih =>
    intro a g w
    cases entry with
    | null => exact ih a g w
    | bool b => exact ih a g w
    | num n => exact ih a g w
    | str s => exact ih a g w
    | arr l => exact ih a g w
    | obj fields =>
      simp only [artistLoop]
      split
      · exact ih _ _ w
      · have hstep := populateGenreCache_world
          (pyStrip (pyStr (pyOr (dictGet (.obj fields) "id") (.str "")))) w
        have hrec := ih ((if pyStrip (pyStr (pyOr (dictGet (.obj fields) "name") (.str ""))) != ""
            then a ++ [pyStrip (pyStr (pyOr (dictGet (.obj fields) "name") (.str "")))] else a))
          (g ++ ((cacheLookup (populateGenreCache
            (pyStrip (pyStr (pyOr (dictGet (.obj fields) "id") (.str "")))) w).genreCache
              (pyStrip (pyStr (pyOr (dictGet (.obj fields) "id") (.str ""))))).getD []))
          (populateGenreCache (pyStrip (pyStr (pyOr (dictGet (.obj fields) "id") (.str "")))) w)
        exact ⟨callsExtend_trans hstep.1 hrec.1, cachePreserve_trans hstep.2 hrec.2⟩

theorem structuredFromPayload_world (track_payload : JVal) (w1 : World) :
    CallsExtend notEmbedCall w1 (structuredFromPayload track_payload w1).2 ∧
    CachePreserve w1 (structuredFromPayload track_payload w1).2 := by
  simp only [structuredFromPayload]
  cases hit : pyIter (pyOr (dictGet track_payload "artists") (.arr [])) with
  | error e => exact ⟨callsExtend_refl _ _, cachePreserve_refl _⟩
  | ok artists_data => exact artistLoop_world artists_data [] [] w1

theorem structuredAttempt_world (track_id : String) (w : World) :
    CallsExtend notEmbedCall w (structuredAttempt track_id w).2 ∧
    CachePreserve w (structuredAttempt track_id w).2 := by
  unfold structuredAttempt
  cases hapi : _spotify_api_get ("https://api.spotify.com/v1/tracks/" ++ track_id) w with
  | mk r w1 =>
    have ha := api_world ("https://api.spotify.com/v1/tracks/" ++ track_id) w
    rw [hapi] at ha
    cases r with
    | error e => exact ⟨ha.1, cachePreserve_of_eq ha.2⟩
    | ok track_payload =>
      have hs := structuredFromPayload_world track_payload w1
      exact ⟨callsExtend_trans ha.1 hs.1,
        cachePreserve_trans (cachePreserve_of_eq ha.2) hs.2⟩

theorem embedHandle_world (r : HttpResponse) (w1 : World) :
    (embedHandleResponse r w1).2 = w1 := by
  unfold embedHandleResponse
  split <;> rfl

theorem fetchEmbed_world (track_id : String) (w : World) :
    (fetchEmbed track_id w).2 =
      { w with calls := w.calls ++
        [.getEmbed ("https://open.spotify.com/embed/track/" ++ track_id)] } := by
  unfold fetchEmbed
  cases hreq : doRequest
      (.getEmbed ("https://open.spotify.com/embed/track/" ++ track_id)) w with
  | mk r w1 =>
    have hw1 : w1 = { w with calls := w.calls ++
        [.getEmbed ("https://open.spotify.com/embed/track/" ++ track_id)] } := by
      have hs := congrArg Prod.snd hreq
      rw [doRequest_world] at hs
      exact hs.symm
    cases r with
    | error e => exact hw1
    | ok resp => exact (embedHandle_world resp w1).trans hw1

/-- `fetch_track_artist` leaves the genre cache untouched, and when the
identifier extraction yields a usable id it logs exactly the embed-page
request. -/
theorem fetch_track_artist_world (spotify_url : String) (w : World) :
    (fetch_track_artist spotify_url w).2.genreCache = w.genreCache ∧
    (∀ tid, track_id_from_url spotify_url = some tid → tid ≠ "" →
      (fetch_track_artist spotify_url w).2.calls =
        w.calls ++ [.getEmbed ("https://open.spotify.com/embed/track/" ++ tid)]) := by
  unfold fetch_track_artist
  cases hid : track_id_from_url spotify_url with
  | none =>
    refine ⟨rfl, ?_⟩
    intro tid h
    exact absurd h (by simp)
  | some tid0 =>
    by_cases he : tid0 = ""
    · subst he
      refine ⟨rfl, ?_⟩
      intro tid h hne
      have : tid = "" := by injection h with h'; exact h'.symm
      exact absurd this hne
    · simp only []
      rw [if_neg (by simp [he])]
      refine ⟨by rw [fetchEmbed_world], ?_⟩
      intro tid h hne
      have hte : tid0 = tid := by injection h
      subst hte
      rw [fetchEmbed_world]

/-- `fallbackStep` never raises, overwrites only `track_name`/`artist`,
leaves the genre cache untouched, and (for a usable id) logs exactly the
embed request. -/
theorem fallbackStep_spec (spotify_url : String) (m : Metadata) (w : World) :
    ∃ m' w', fallbackStep spotify_url m w = (.ok m', w') ∧
      m'.genre = m.genre ∧ m'.album = m.album ∧ m'.release_date = m.release_date ∧
      m'.duration = m.duration ∧ m'.explicit = m.explicit ∧
      m'.popularity = m.popularity ∧
      w'.genreCache = w.genreCache ∧
      (∀ tid, track_id_from_url spotify_url = some tid → tid ≠ "" →
        w'.calls = w.calls ++
          [.getEmbed ("https://open.spotify.com/embed/track/" ++ tid)]) := by
  unfold fallbackStep
  cases hfa : fetch_track_artist spotify_url w with
  | mk r wa =>
    have hw := fetch_track_artist_world spotify_url w
    rw [hfa] at hw
    cases r with
    | ok p =>
      cases p with
      | mk ft fa =>
        exact ⟨_, wa, rfl, rfl, rfl, rfl, rfl, rfl, rfl, hw.1, hw.2⟩
    | error e =>
      exact ⟨m, wa, rfl, rfl, rfl, rfl, rfl, rfl, rfl, hw.1, hw.2⟩

/-- `fetch_track_metadata` always returns a metadata record (the two
`try`/`except` blocks absorb every exception). -/
theorem fetch_ok (spotify_url : String) (w : World) :
    ∃ m w', fetch_track_metadata spotify_url w = (.ok m, w') := by
  unfold fetch_track_metadata
  cases hid : track_id_from_url spotify_url with
  | none => exact ⟨_, w, rfl⟩
  | some track_id =>
    by_cases he : track_id = ""
    · subst he
      exact ⟨_, w, rfl⟩
    · simp only []
      rw [if_neg (by simp [he])]
      cases hsa : structuredAttempt track_id w with
      | mk r w1 =>
        cases r with
        | ok m =>
          simp only []
          split
          · exact ⟨m, w1, rfl⟩
          · obtain ⟨m', w', hfb, _⟩ := fallbackStep_spec spotify_url m w1
            exact ⟨m', w', hfb⟩
        | error e =>
          simp only []
          obtain ⟨m', w', hfb, _⟩ := fallbackStep_spec spotify_url _blank_metadata w1
          exact ⟨m', w', hfb⟩

/-- `fetch_track_metadata` never removes or overwrites an existing
artist-genre cache entry. -/
theorem fetch_cachePreserve (spotify_url : String) (w : World) :
    CachePreserve w (fetch_track_metadata spotify_url w).2 := by
  unfold fetch_track_metadata
  cases hid : track_id_from_url spotify_url with
  | none => exact cachePreserve_refl w
  | some track_id =>
    by_cases he : track_id = ""
    · subst he
      exact cachePreserve_refl w
    · simp only []
      rw [if_neg (by simp [he])]
      cases hsa : structuredAttempt track_id w with
      | mk r w1 =>
        have hs := structuredAttempt_world track_id w
        rw [hsa] at hs
        cases r with
        | ok m =>
          simp only []
          split
          · exact hs.2
          · obtain ⟨m', w', hfb, _, _, _, _, _, _, hg, _⟩ :=
              fallbackStep_spec spotify_url m w1
            rw [hfb]
            exact cachePreserve_trans hs.2 (cachePreserve_of_eq hg)
        | error e =>
          simp only []
          obtain ⟨m', w', hfb, _, _, _, _, _, _, hg, _⟩ :=
            fallbackStep_spec spotify_url _blank_metadata w1
          rw [hfb]
          exact cachePreserve_trans hs.2 (cachePreserve_of_eq hg)

/-! ## Claim C2 — the resolver never raises -/

/-- C2 (confirmed): for every URL string and every behaviour of the HTTP
layer (`w.http` is an arbitrary oracle, covering any response, status,
undecodable body or raised transport/auth error), `fetch_track_metadata`
returns a metadata record and never propagates an exception. -/
theorem C2_fetch_never_raises (spotify_url : String) (w : World) :
    ∃ m w', fetch_track_metadata spotify_url w = (.ok m, w') :=
  fetch_ok spotify_url w

/-! ## Claim C10 — the artist-genre cache grows monotonically -/

/-- C10 (confirmed): `fetch_track_metadata` only adds new keys to the
artist-genre cache; every entry cached before a call is still present,
unchanged, after it. -/
theorem C10_cache_monotone (spotify_url : String) (w : World) (k : String)
    (v : List String) (h : cacheLookup w.genreCache k = some v) :
    cacheLookup (fetch_track_metadata spotify_url w).2.genreCache k = some v :=
  fetch_cachePreserve spotify_url w k v h

/-- Witness for C10 at a concrete pre-populated cache. -/
theorem C10_cache_monotone_witness :
    cacheLookup (fetch_track_metadata "x" WcachePre).2.genreCache "a0" = some ["g0"] :=
  C10_cache_monotone "x" WcachePre "a0" ["g0"] (by decide)

/-! ## Claim C6 — fallback invocation and merge frame -/

/-- C6 (confirmed): the scrape fallback runs exactly when the structured
attempt raises or yields empty `track_name`, `artist` and `genre` (on a
non-empty structured result no embed request is ever made), and when it
runs it overwrites only `track_name`/`artist`: the six other fields keep
their values from the structured attempt (blank if it never populated
them), while exactly one embed request is logged. -/
theorem C6_fallback_frame (spotify_url track_id : String) (w : World)
    (hid : track_id_from_url spotify_url = some track_id) (hne : track_id ≠ "") :
    (∀ m w1, structuredAttempt track_id w = (.ok m, w1) →
      (m.track_name ≠ "" ∨ m.artist ≠ "" ∨ m.genre ≠ "") →
      fetch_track_metadata spotify_url w = (.ok m, w1) ∧
      countEmbed w1.calls = countEmbed w.calls) ∧
    (∀ m w1, structuredAttempt track_id w = (.ok m, w1) →
      m.track_name = "" → m.artist = "" → m.genre = "" →
      fetch_track_metadata spotify_url w = fallbackStep spotify_url m w1) ∧
    (∀ e w1, structuredAttempt track_id w = (.error e, w1) →
      fetch_track_metadata spotify_url w = fallbackStep spotify_url _blank_metadata w1) ∧
    (∀ m w1 m' w', fallbackStep spotify_url m w1 = (.ok m', w') →
      m'.genre = m.genre ∧ m'.album = m.album ∧ m'.release_date = m.release_date ∧
      m'.duration = m.duration ∧ m'.explicit = m.explicit ∧
      m'.popularity = m.popularity ∧
      w'.calls = w1.calls ++
        [.getEmbed ("https://open.spotify.com/embed/track/" ++ track_id)]) := by
  have hmain : ∀ m w1, structuredAttempt track_id w = (.ok m, w1) →
      fetch_track_metadata spotify_url w =
        (if m.track_name != "" || m.artist != "" || m.genre != ""
          then ((.ok m, w1) : MRes Metadata)
          else fallbackStep spotify_url m w1) := by
    intro m w1 hsa
    unfold fetch_track_metadata
    rw [hid]
    simp only []
    rw [if_neg (by simp [hne]), hsa]
  refine ⟨?_, ?_, ?_, ?_⟩
  · intro m w1 hsa hnonempty
    have cond : (m.track_name != "" || m.artist != "" || m.genre != "") = true := by
      rcases hnonempty with h | h | h <;> simp [h]
    have hs := (structuredAttempt_world track_id w).1
    rw [hsa] at hs
    exact ⟨by rw [hmain m w1 hsa, if_pos cond], countEmbed_of_extend hs⟩
  · intro m w1 hsa h1 h2 h3
    rw [hmain m w1 hsa, if_neg (by simp [h1, h2, h3])]
  · intro e w1 hsa
    unfold fetch_track_metadata
    rw [hid]
    simp only []
    rw [if_neg (by simp [hne]), hsa]
  · intro m w1 m' w' hfb
    obtain ⟨m'', w'', hfb', hg, ha, hr, hd, hx, hp, hgc, hcalls⟩ :=
      fallbackStep_spec spotify_url m w1
    rw [hfb] at hfb'
    injection hfb' with hL hR
    injection hL with hm
    subst hm
    subst hR
    exact ⟨hg, ha, hr, hd, hx, hp, hcalls track_id hid hne⟩

/-- Witness for C6: with an unreachable structured path and a served embed
page, the fallback populates exactly `track_name`/`artist`. -/
theorem C6_fallback_frame_witness :
    (fetch_track_metadata "open.spotify.com/track/abc" Wscrape).1 =
      .ok ⟨"A", "T", "", "", "", "", "", ""⟩ := by
  have h := (C6_fallback_frame "open.spotify.com/track/abc" "abc" Wscrape
    (by decide) (by decide)).2.2.1 _ _ rfl
  rw [h]
  rfl

/-! ## Claim C1 — batch shape -/

theorem fillRowsLoop_spec (urls : List String) : ∀ w, ∃ rows w',
    fillRowsLoop urls w = (.ok rows, w') ∧ rows.length = urls.length ∧
    ∀ i (hi : i < urls.length) (hr : i < rows.length),
      (rows.get ⟨i, hr⟩).url = pyStrip (urls.get ⟨i, hi⟩) ∧
      (pyStrip (urls.get ⟨i, hi⟩) = "" →
        rows.get ⟨i, hr⟩ = rowOfMetadata "" _blank_metadata) := by
  induction urls with
  | nil =>
    intro w
    exact ⟨[], w, rfl, rfl, fun i hi => absurd hi (Nat.not_lt_zero i)⟩
  | cons v rest ih =>
    intro w
    by_cases hv : pyStrip v = ""
    · obtain ⟨rows, w', hloop, hlen, hidx⟩ := ih w
      refine ⟨rowOfMetadata "" _blank_metadata :: rows, w', ?_, by simp [hlen], ?_⟩
      · show fillRowsLoop (v :: rest) w = _
        simp only [fillRowsLoop]
        rw [if_pos (by simp [hv]), hloop]
      · intro i hi hr
        cases i with
        | zero => exact ⟨hv.symm, fun _ => rfl⟩
        | succ n =>
          exact hidx n (Nat.lt_of_succ_lt_succ hi) (Nat.lt_of_succ_lt_succ hr)
    · obtain ⟨m0, w0, hfo⟩ := fetch_ok (pyStrip v) w
      obtain ⟨rows, w', hloop, hlen, hidx⟩ := ih w0
      refine ⟨rowOfMetadata (pyStrip v) m0 :: rows, w', ?_, by simp [hlen], ?_⟩
      · show fillRowsLoop (v :: rest) w = _
        simp only [fillRowsLoop]
        rw [if_neg (by simp [hv]), hfo]
        simp only []
        rw [hloop]
      · intro i hi hr
        cases i with
        | zero => exact ⟨rfl, fun hc => absurd hc hv⟩
        | succ n =>
          exact hidx n (Nat.lt_of_succ_lt_succ hi) (Nat.lt_of_succ_lt_succ hr)

/-- C1 (confirmed): `fill_rows` never raises and returns one row per input,
in order: `fill_rows([]) = []`; a blank or whitespace-only input yields the
all-blank row with empty `url`; a non-blank input yields a row whose `url`
is the input stripped of surrounding whitespace. -/
theorem C1_fill_rows_shape :
    (∀ w, fill_rows [] w = (.ok [], { w with genreCache := [] })) ∧
    (∀ urls w, ∃ rows w', fill_rows urls w = (.ok rows, w')) ∧
    (∀ urls w rows w', fill_rows urls w = (.ok rows, w') →
      rows.length = urls.length ∧
      ∀ i (hi : i < urls.length) (hr : i < rows.length),
        (rows.get ⟨i, hr⟩).url = pyStrip (urls.get ⟨i, hi⟩) ∧
        (pyStrip (urls.get ⟨i, hi⟩) = "" →
          rows.get ⟨i, hr⟩ = rowOfMetadata "" _blank_metadata)) := by
  refine ⟨fun w => rfl, ?_, ?_⟩
  · intro urls w
    obtain ⟨rows, w', h, _, _⟩ := fillRowsLoop_spec urls { w with genreCache := [] }
    exact ⟨rows, w', h⟩
  · intro urls w rows w' h
    obtain ⟨rows0, w0, h0, hlen, hidx⟩ := fillRowsLoop_spec urls { w with genreCache := [] }
    unfold fill_rows at h
    rw [h0] at h
    injection h with hL hR
    injection hL with h1
    subst h1
    subst hR
    exact ⟨hlen, hidx⟩

/-- Witness for C1: `fill_rows([" "])` yields the single all-blank row. -/
theorem C1_fill_rows_shape_witness :
    ([rowOfMetadata "" _blank_metadata] : List Row).length = [" "].length ∧
    (rowOfMetadata "" _blank_metadata).url = pyStrip " " := by
  have h := C1_fill_rows_shape.2.2 [" "] Winert [rowOfMetadata "" _blank_metadata]
    { Winert with genreCache := [] } rfl
  exact ⟨h.1, (h.2 0 (by decide) (by decide)).1⟩
